import Mathlib

/-!
Shallow embedding of `src/pong_game.py` (a pygame pong clone) and proofs
about it.

Conventions of the embedding:

* Positions and velocities (`pygame.Vector2`, python floats) are modelled as
  exact rationals `ℚ × ℚ`: all arithmetic the verified code paths perform on
  them is addition, multiplication by constants, negation and comparison,
  which float rounding does not change for the magnitudes involved; the two
  places where the code normalises a vector with a square root (the paddle
  bounce direction and the respawn velocity) are modelled nondeterministically
  by an input constrained by a predicate (`IsScaled10`, `RespawnVel`).
* `pygame.Rect` stores C ints and truncates float coordinates toward zero;
  `Rect` stores `ℤ` and `qtrunc` models the float→int conversion.
* `rd.random()` draws are modelled as nondeterministic inputs.
* Rendering, sound, logging and the pygame event queue are outside the model;
  the score-rect sanity check of `Game.update` (line 493, a rendering-state
  check) is likewise not modelled.
-/

/-- Truncation toward zero: how pygame converts a float coordinate to the C
int stored in a `Rect`. -/
def qtrunc (q : ℚ) : ℤ := if 0 ≤ q then ⌊q⌋ else ⌈q⌉

/-- `math.copysign x s`: the magnitude of `x` with the sign of `s`.  Exact
rationals have no signed zero, so `s = 0` gets the positive sign (float `+0.0`
behaviour); theorems below never rely on the sign produced for `s = 0`. -/
def copysign (x s : ℚ) : ℚ := if s < 0 then -|x| else |x|

/-- A 2-d vector (`pygame.Vector2`). -/
abbrev Vec2 := ℚ × ℚ

/-- `multiply_vec` (line 29): elementwise product of two vectors. -/
def multiply_vec (v w : Vec2) : Vec2 := (v.1 * w.1, v.2 * w.2)

/-- `pygame.Rect`: integer x, y, width, height. -/
structure Rect where
  x : ℤ
  y : ℤ
  w : ℤ
  h : ℤ
deriving DecidableEq

def Rect.left (r : Rect) : ℤ := r.x

def Rect.right (r : Rect) : ℤ := r.x + r.w

def Rect.top (r : Rect) : ℤ := r.y

def Rect.bottom (r : Rect) : ℤ := r.y + r.h

def Rect.centerx (r : Rect) : ℤ := r.x + r.w / 2

def Rect.centery (r : Rect) : ℤ := r.y + r.h / 2

/-- `Rect.colliderect` for rects of positive size: strict overlap on both
axes (pygame's `_pg_do_rects_intersect`). -/
def Rect.colliderect (a b : Rect) : Prop :=
  a.left < b.right ∧ b.left < a.right ∧ a.top < b.bottom ∧ b.top < a.bottom

instance (a b : Rect) : Decidable (a.colliderect b) := by
  unfold Rect.colliderect; infer_instance

/-- `Rect.contains`: `b` lies completely inside `a` (pygame's test, including
its two strict conditions ruling out a degenerate `b` left of / above `a`). -/
def Rect.contains (a b : Rect) : Prop :=
  a.left ≤ b.left ∧ a.top ≤ b.top ∧ b.right ≤ a.right ∧ b.bottom ≤ a.bottom ∧
  b.left < a.right ∧ b.top < a.bottom

instance (a b : Rect) : Decidable (a.contains b) := by
  unfold Rect.contains; infer_instance

/-- `Player` (lines 121-184): a paddle. `hitBoxRect` is the stored
constructor argument `self._hit_box`; `hit_box_offset` its (x, y).
`up_force`/`down_force` are instance-level copies of the class constants,
because `TutorialDialogue.check_stage` overwrites them on the bot. -/
structure Player where
  pos : Vec2
  vel : Vec2
  hitBoxRect : Rect
  hit_box_offset : Vec2
  walls : Rect
  control_delay : ℕ
  last_press : ℕ
  move_buffer : ℕ
  ball_bounce : Vec2
  up_force : Vec2
  down_force : Vec2
deriving DecidableEq

/-- `Player.friction` class constant (line 122). -/
def Player.friction : ℚ := 9 / 10

/-- The `hit_box` property (lines 140-142): the stored rect translated to
`pos + hit_box_offset` (coordinates truncated toward zero by `pygame.Rect`). -/
def Player.hit_box (p : Player) : Rect :=
  ⟨qtrunc (p.pos.1 + p.hit_box_offset.1), qtrunc (p.pos.2 + p.hit_box_offset.2),
   p.hitBoxRect.w, p.hitBoxRect.h⟩

/-- Line 177-178 of `Player.clamp_pos`: left-edge check. -/
def Player.clampLeft (p : Player) : Player :=
  if p.hit_box.left < p.walls.left then
    { p with pos := (((p.walls.left + 1 : ℤ) : ℚ), p.pos.2) } else p

/-- Line 179-180 of `Player.clamp_pos`: right-edge check. -/
def Player.clampRight (p : Player) : Player :=
  if p.walls.right < p.hit_box.right then
    { p with pos := (((p.walls.right - p.hit_box.w - 1 : ℤ) : ℚ), p.pos.2) } else p

/-- Line 181-182 of `Player.clamp_pos`: top-edge check. -/
def Player.clampTop (p : Player) : Player :=
  if p.hit_box.top < p.walls.top then
    { p with pos := (p.pos.1, ((p.walls.top + 1 : ℤ) : ℚ)) } else p

/-- Line 183-184 of `Player.clamp_pos`: bottom-edge check. -/
def Player.clampBottom (p : Player) : Player :=
  if p.walls.bottom < p.hit_box.bottom then
    { p with pos := (p.pos.1, ((p.walls.bottom - p.hit_box.h - 1 : ℤ) : ℚ)) } else p

/-- `Player.clamp_pos` (lines 176-184): four sequential edge checks, each
reading the hit box recomputed from the current position. -/
def Player.clamp_pos (p : Player) : Player :=
  p.clampLeft.clampRight.clampTop.clampBottom

/-- Line 149 of `Player.update`: `self.pos += self.vel`. -/
def Player.move (p : Player) : Player :=
  { p with pos := (p.pos.1 + p.vel.1, p.pos.2 + p.vel.2) }

/-- Line 150 of `Player.update`: `self.vel *= self.friction`. -/
def Player.applyFriction (p : Player) : Player :=
  { p with vel := (p.vel.1 * Player.friction, p.vel.2 * Player.friction) }

/-- Lines 154-155 of `Player.update`: tick the control-delay timer down. -/
def Player.tickTimer (p : Player) : Player :=
  if 0 < p.last_press then { p with last_press := p.last_press - 1 } else p

/-- `Player.update` (lines 148-155): integrate, apply friction, clamp,
tick down the control-delay timer. -/
def Player.update (p : Player) : Player :=
  p.move.applyFriction.clamp_pos.tickTimer

/-- `Player.up` (lines 157-158). -/
def Player.up (p : Player) : Player :=
  { p with vel := (p.vel.1 + p.up_force.1, p.vel.2 + p.up_force.2) }

/-- `Player.down` (lines 160-161). -/
def Player.down (p : Player) : Player :=
  { p with vel := (p.vel.1 + p.down_force.1, p.vel.2 + p.down_force.2) }

/-- `Player.control` (lines 163-174).  `if self.last_press:` is python
truthiness: nonzero. -/
def Player.control (p : Player) (mode : ℕ) : Player :=
  if p.last_press ≠ 0 then { p with move_buffer := mode }
  else if mode = 1 then
    { p.up with last_press := p.last_press + p.control_delay, move_buffer := 0 }
  else if mode = 2 then
    { p.down with last_press := p.last_press + p.control_delay, move_buffer := 0 }
  else p

/-- `Ball` (lines 187-275).  `hitBoxRect` stores the constructor's
`hit_box` argument (`self._hit_box`). -/
structure Ball where
  pos : Vec2
  vel : Vec2
  hitBoxRect : Rect
  hit_box_offset : Vec2
  walls : Rect
  bounce_interval : ℕ
  bounce_elapse : ℕ
  pads_bounce_interval : ℕ
  pads_bounce_elapse : ℕ
deriving DecidableEq

/-- `Ball.horizontal` class constant (line 189): x-reflection mask. -/
def Ball.horizontal : Vec2 := (-1, 1)

/-- `Ball.vertical` class constant (line 190): y-reflection mask. -/
def Ball.vertical : Vec2 := (1, -1)

/-- The ball's `hit_box` property (lines 207-209). -/
def Ball.hit_box (b : Ball) : Rect :=
  ⟨qtrunc (b.pos.1 + b.hit_box_offset.1), qtrunc (b.pos.2 + b.hit_box_offset.2),
   b.hitBoxRect.w, b.hitBoxRect.h⟩

/-- One reflection inside `Ball.bounce`: multiply the velocity by the mask,
step the position once more, arm the cooldown with `bounce_interval`. -/
def Ball.bounceStep (b : Ball) (mask : Vec2) : Ball :=
  let v := multiply_vec b.vel mask
  { b with vel := v, pos := (b.pos.1 + v.1, b.pos.2 + v.2),
           bounce_elapse := b.bounce_elapse + b.bounce_interval }

/-- Lines 250-253 of `Ball.bounce`: left-wall crossing. -/
def Ball.bounceLeft (b : Ball) : Ball :=
  if b.hit_box.left < b.walls.left then b.bounceStep Ball.horizontal else b

/-- Lines 254-257 of `Ball.bounce`: right-wall crossing. -/
def Ball.bounceRight (b : Ball) : Ball :=
  if b.walls.right < b.hit_box.right then b.bounceStep Ball.horizontal else b

/-- Lines 258-261 of `Ball.bounce`: top-wall crossing. -/
def Ball.bounceTop (b : Ball) : Ball :=
  if b.hit_box.top < b.walls.top then b.bounceStep Ball.vertical else b

/-- Lines 262-265 of `Ball.bounce`: bottom-wall crossing. -/
def Ball.bounceBottom (b : Ball) : Ball :=
  if b.walls.bottom < b.hit_box.bottom then b.bounceStep Ball.vertical else b

/-- `Ball.bounce` (lines 247-265): early return while the cooldown is
positive, then four sequential edge checks, each reading the hit box
recomputed from the current (possibly already re-stepped) position. -/
def Ball.bounce (b : Ball) : Ball :=
  if 0 < b.bounce_elapse then b
  else b.bounceLeft.bounceRight.bounceTop.bounceBottom

/-- Lines 268-269 of `Ball.clamp_pos` (left edge pushes 21 units in). -/
def Ball.clampLeft (b : Ball) : Ball :=
  if b.hit_box.left < b.walls.left then
    { b with pos := (((b.walls.left + 21 : ℤ) : ℚ), b.pos.2) } else b

/-- Lines 270-271 of `Ball.clamp_pos` (right edge pushes *out* by the hit
box width). -/
def Ball.clampRight (b : Ball) : Ball :=
  if b.walls.right < b.hit_box.right then
    { b with pos := (((b.walls.right + b.hit_box.w : ℤ) : ℚ), b.pos.2) } else b

/-- Lines 272-273 of `Ball.clamp_pos` (top edge adds the y-velocity). -/
def Ball.clampTop (b : Ball) : Ball :=
  if b.hit_box.top < b.walls.top then
    { b with pos := (b.pos.1, ((b.walls.top : ℤ) : ℚ) + b.vel.2) } else b

/-- Lines 274-275 of `Ball.clamp_pos` (bottom edge pushes *out* by the hit
box height). -/
def Ball.clampBottom (b : Ball) : Ball :=
  if b.walls.bottom < b.hit_box.bottom then
    { b with pos := (b.pos.1, ((b.walls.bottom + b.hit_box.h : ℤ) : ℚ)) } else b

/-- `Ball.clamp_pos` (lines 267-275), with the source's asymmetric offsets
kept exactly. -/
def Ball.clamp_pos (b : Ball) : Ball :=
  b.clampLeft.clampRight.clampTop.clampBottom

/-- The integer difference of centers `Vector2(ball.hit_box.center) -
Vector2(pad.hit_box.center)` (line 232). -/
def Ball.center_diff (b : Ball) (pad : Player) : Vec2 :=
  (((b.hit_box.centerx - pad.hit_box.centerx : ℤ) : ℚ),
   ((b.hit_box.centery - pad.hit_box.centery : ℤ) : ℚ))

/-- Characterises the vector the code computes for a paddle bounce
(lines 233-236): `diff / diff.length() * 10` when `diff` has nonzero length
— i.e. the positive multiple of `diff` of squared norm `100` — and the fixed
fallback `(8, 6)` otherwise.  The square root itself is not representable in
`ℚ`, so `Ball.update` takes this vector as a nondeterministic input
(`dirOracle`) which theorems constrain with this predicate. -/
def IsScaled10 (diff v : Vec2) : Prop :=
  (diff ≠ (0, 0) ∧ ∃ t : ℚ, 0 < t ∧ v = (t * diff.1, t * diff.2) ∧
    v.1 ^ 2 + v.2 ^ 2 = 100) ∨
  (diff = (0, 0) ∧ v = (8, 6))

/-- The body of the paddle-collision branch (lines 231-240): record the sign
vector `velocity * pad.ball_bounce`, clamp the computed x-component away from
zero, copy the recorded signs onto the computed vector, arm the paddle-bounce
cooldown.  `dirOracle` stands for the normalised-and-scaled center difference
(see `IsScaled10`). -/
def Ball.padCollide (b : Ball) (pad : Player) (dirOracle : Vec2) : Ball :=
  let si := multiply_vec b.vel pad.ball_bounce
  let vx := if dirOracle.1 = 0 then 1 else dirOracle.1
  { b with vel := (copysign vx si.1, copysign dirOracle.2 si.2),
           pads_bounce_elapse := b.pads_bounce_elapse + b.pads_bounce_interval }

/-- The `for pad in pads` loop of `Ball.update` (lines 229-240): each paddle
is tested against the current hit box and the current cooldown, so the first
collision (which arms the cooldown) suppresses the rest. -/
def Ball.padsPhase : Ball → List Player → Vec2 → Ball
  | b, [], _ => b
  | b, pad :: rest, dirOracle =>
    let b := if b.hit_box.colliderect pad.hit_box ∧ b.pads_bounce_elapse = 0 then
      b.padCollide pad dirOracle else b
    Ball.padsPhase b rest dirOracle

/-- Line 216 of `Ball.update`: `self.pos += self.vel`. -/
def Ball.move (b : Ball) : Ball :=
  { b with pos := (b.pos.1 + b.vel.1, b.pos.2 + b.vel.2) }

/-- Lines 220-224 of `Ball.update`: tick both bounce cooldowns down. -/
def Ball.coolTick (b : Ball) : Ball :=
  let b := if 0 < b.bounce_elapse then { b with bounce_elapse := b.bounce_elapse - 1 } else b
  if 0 < b.pads_bounce_elapse then
    { b with pads_bounce_elapse := b.pads_bounce_elapse - 1 } else b

/-- `Ball.update` (lines 215-240): integrate, wall-bounce, clamp, tick both
cooldowns down, then the paddle-collision loop.  The goal checks of
lines 242-245 mutate the owning `Game`, so they live in `GameState.update`
below (the ball itself is unchanged by them). -/
def Ball.update (b : Ball) (pads : List Player) (dirOracle : Vec2) : Ball :=
  Ball.padsPhase b.move.bounce.clamp_pos.coolTick pads dirOracle

/-- The playable bounds `self.bounds = pg.Rect(20, 15, 482, 221)`
(`Game.__init__`, line 370). -/
def gameBounds : Rect := ⟨20, 15, 482, 221⟩

/-- The outer despawn bound `self.max_bounds` (lines 374-375):
`Rect(bounds.x - 20, bounds.y - 20, bounds.width + 20, bounds.height + 20)`.
Note it extends the bounds 20 units left and up but not right or down. -/
def gameMaxBounds : Rect := ⟨20 - 20, 15 - 20, 482 + 20, 221 + 20⟩

/-- The left goal region (line 378). -/
def leftGoalRect : Rect := ⟨20, 0, 10, 256⟩

/-- The right goal region (line 379). -/
def rightGoalRect : Rect := ⟨492, 0, 10, 256⟩

/-- The simulation state of a `Game` scene (lines 356-534).  Rendering
fields (images, fonts, score rects, background) are outside the model, and
with them the score-rect sanity check of line 493. -/
structure GameState where
  player : Player
  bot : Player
  ball : Ball
  player_score : ℕ
  bot_score : ℕ
  scoring_delay : ℕ
  scoring_elapse : ℕ
deriving DecidableEq

/-- A paddle as `Game.__init__` builds it (lines 371-372): hit box
`Rect(0, 0, 10, 50)`, walls `self.bounds`, control delay 10, and the
`Player` class constants. -/
def mkPlayer (pos : Vec2) : Player :=
  { pos := pos, vel := (0, 0), hitBoxRect := ⟨0, 0, 10, 50⟩, hit_box_offset := (0, 0),
    walls := gameBounds, control_delay := 10, last_press := 0, move_buffer := 0,
    ball_bounce := (-1, 1), up_force := (0, -10), down_force := (0, 10) }

/-- The ball `Game.respawn_ball` constructs (line 478): centred at
`(256, 128)`, hit box `Rect(0, 0, 10, 10)`, walls `self.bounds`, wall
`bounce_interval` 0 and paddle bounce interval 5.  `v` stands for the
freshly drawn velocity (see `RespawnVel`). -/
def respawn_ball (v : Vec2) : Ball :=
  { pos := (256, 128), vel := v, hitBoxRect := ⟨0, 0, 10, 10⟩, hit_box_offset := (0, 0),
    walls := gameBounds, bounce_interval := 0, bounce_elapse := 0,
    pads_bounce_interval := 5, pads_bounce_elapse := 0 }

/-- The velocities `respawn_ball` (lines 471-476) can draw: two
`rd.random() * 20 - 10` samples, normalised and rescaled to speed 10 when the
vector has nonzero length and nonzero x — i.e. any vector of squared norm 100
with nonzero x — else the fixed fallback `(8, 9)`. -/
def RespawnVel (v : Vec2) : Prop :=
  (v.1 ≠ 0 ∧ v.1 ^ 2 + v.2 ^ 2 = 100) ∨ v = (8, 9)

/-- `Game.left_collide` (lines 524-528): python truthiness again —
a positive cooldown suppresses the score. -/
def GameState.left_collide (g : GameState) : GameState :=
  if g.scoring_elapse ≠ 0 then g
  else { g with bot_score := g.bot_score + 1,
                scoring_elapse := g.scoring_elapse + g.scoring_delay }

/-- `Game.right_collide` (lines 530-534). -/
def GameState.right_collide (g : GameState) : GameState :=
  if g.scoring_elapse ≠ 0 then g
  else { g with player_score := g.player_score + 1,
                scoring_elapse := g.scoring_elapse + g.scoring_delay }

/-- `Game.control_bot` (lines 496-500): two independent checks (the second
re-reads the bot, whose position `control` never changes). -/
def GameState.control_bot (g : GameState) : GameState :=
  let g := if g.ball.hit_box.centery < g.bot.hit_box.centery then
    { g with bot := g.bot.control 1 } else g
  let g := if g.bot.hit_box.centery < g.ball.hit_box.centery then
    { g with bot := g.bot.control 2 } else g
  g

/-- Lines 482-483 of `Game.update`: respawn the ball if its hit box is not
contained in the outer despawn bound. -/
def GameState.respawnPhase (g : GameState) (rv : Vec2) : GameState :=
  if ¬ gameMaxBounds.contains g.ball.hit_box then { g with ball := respawn_ball rv } else g

/-- Line 484 of `Game.update`: both paddles update. -/
def GameState.playersPhase (g : GameState) : GameState :=
  { g with player := g.player.update, bot := g.bot.update }

/-- The ball state right after line 485's physics (respawn check, paddle
updates, then `Ball.update` against the updated paddles) — the hit box the
goal callbacks are tested against. -/
def GameState.ballAfterPhysics (g : GameState) (rv dirOracle : Vec2) : Ball :=
  let g := (g.respawnPhase rv).playersPhase
  g.ball.update [g.player, g.bot] dirOracle

/-- The goal checks of `Ball.update` (lines 242-245), inlined at game level
because the callbacks mutate the owning `Game`: `self.goals` is
`[left_goal, right_goal]`, tested in that order against the updated ball's
hit box. -/
def GameState.goalsPhase (g : GameState) : GameState :=
  let g := if leftGoalRect.colliderect g.ball.hit_box then g.left_collide else g
  let g := if rightGoalRect.colliderect g.ball.hit_box then g.right_collide else g
  g

/-- Lines 490-491 of `Game.update`: tick the post-score cooldown down. -/
def GameState.scoreTick (g : GameState) : GameState :=
  if 0 < g.scoring_elapse then { g with scoring_elapse := g.scoring_elapse - 1 } else g

/-- The game state right before the goal checks run: respawn check, paddle
updates, ball physics stored back. -/
def GameState.preGoals (g : GameState) (rv dirOracle : Vec2) : GameState :=
  { (g.respawnPhase rv).playersPhase with ball := g.ballAfterPhysics rv dirOracle }

/-- `Game.update` (lines 481-494): respawn check, paddle updates, ball
update (with the goal callbacks), bot control, score-cooldown tick.
`rv` and `dirOracle` are the tick's nondeterministic inputs (respawn
velocity draw and normalised paddle-bounce direction). -/
def GameState.update (g : GameState) (rv dirOracle : Vec2) : GameState :=
  (g.preGoals rv dirOracle).goalsPhase.control_bot.scoreTick

/-- Which scene object `App` holds where. -/
inductive SceneId
  | menu
  | game
  | tutorial
deriving DecidableEq

/-- The state of the tutorial dialogue stage machine (`TutorialDialogue`,
lines 683-763) together with the pieces of `Tutorial`/`App` state that
`check_stage` reads or writes: the two scores, the bot paddle and the active
scene.  `stdout_closed` records the `sys.stdout.close()` gag of the
`"close"` stage.  The scene setter's side effects are modelled separately
(`AppState.setScene`). -/
structure TutorialState where
  stage : String
  player_score : ℕ
  bot_score : ℕ
  bot : Player
  scene : SceneId
  stdout_closed : Bool
deriving DecidableEq

/-- The `move_dict` transition table of `TutorialDialogue.update_stage`
(lines 720-723). -/
def move_dict : List (String × String) :=
  [("0", "1"), ("1", "2"), ("2.get_easy", "3.1"), ("2.get_hard", "3.2"),
   ("2.get_long", "2.long_info"), ("2.long_info", "3.3"), ("4", "back1"),
   ("4.bad", "back"), ("back1", "return"), ("return", "ret12"),
   ("ret12", "return2"), ("return2", "ret23"), ("ret23", "return3"),
   ("return3", "ret34"), ("ret34", "return4"), ("return4", "close")]

/-- `TutorialDialogue.update_stage` (lines 719-725). -/
def TutorialState.update_stage (t : TutorialState) : TutorialState :=
  match move_dict.lookup t.stage with
  | some s => { t with stage := s }
  | none => t

/-- `TutorialDialogue.check_stage` (lines 727-763).  At stage `"2"` the
hard/easy/long conditions are tested in source order; the hard and easy
branches overwrite the bot's force vectors and set its `control_delay` to 2
(the hard branch writes the forces twice in the source; same effect). -/
def TutorialState.check_stage (t : TutorialState) : TutorialState :=
  if t.stage = "2" then
    if t.player_score * 2 ≤ t.bot_score ∧ 5 ≤ t.bot_score then
      { t with
          stage := "2.get_hard"
          bot := { t.bot with
                     up_force := (0, -5)
                     down_force := (0, 5)
                     control_delay := 2 } }
    else if t.bot_score * 2 ≤ t.player_score ∧ 7 ≤ t.player_score then
      { t with
          stage := "2.get_easy"
          bot := { t.bot with
                     up_force := (0, -5)
                     down_force := (0, 5)
                     control_delay := 2 } }
    else if 10 ≤ t.bot_score then { t with stage := "2.get_long" }
    else t
  else if t.stage = "3.1" ∨ t.stage = "3.2" ∨ t.stage = "3.3" then
    if 10 < t.player_score then
      if t.bot_score ≤ 10 then { t with stage := "4" }
      else { t with stage := "4.bad" }
    else t
  else if t.stage = "back1" then { t with scene := SceneId.menu, stage := "return" }
  else if t.stage = "back" then
    { t with scene := SceneId.menu, player_score := 0, bot_score := 0, stage := "1" }
  else if t.stage = "close" then { t with stdout_closed := true }
  else if t.stage = "ret12" ∨ t.stage = "ret23" ∨ t.stage = "ret34" then
    ({ t with scene := SceneId.menu } : TutorialState).update_stage
  else t

/-- The lifecycle state of one scene object: the `initialized` flag set by
`Scene.__init__` (line 295), and an observation counter for how many times
the scene's one-time setup body (`initialize`, overridden per scene — pure
rendering setup) has actually run. -/
structure SceneState where
  initialized : Bool
  initRuns : ℕ
deriving DecidableEq

/-- Running a scene's one-time setup body.  The body never touches
`self.initialized`; only `Scene.init` does. -/
def SceneState.runInit (s : SceneState) : SceneState := { s with initRuns := s.initRuns + 1 }

/-- `Scene.init` (lines 313-316): the guarded wrapper that runs the setup
body once and sets the flag.  No code path in the file ever calls it. -/
def SceneState.init (s : SceneState) : SceneState :=
  if s.initialized then s else { s.runInit with initialized := true }

/-- The `App` state relevant to scene lifecycle: the `done` flag and the
three scene objects with the weak active pointer. -/
structure AppState where
  done : Bool
  menu : SceneState
  game : SceneState
  tutorial : SceneState
  active : SceneId
deriving DecidableEq

/-- Apply `f` to the scene object the active pointer designates. -/
def AppState.mapActive (a : AppState) (f : SceneState → SceneState) : AppState :=
  match a.active with
  | SceneId.menu => { a with menu := f a.menu }
  | SceneId.game => { a with game := f a.game }
  | SceneId.tutorial => { a with tutorial := f a.tutorial }

/-- The `App.scene` setter (lines 54-59): store the reference, then — if the
run loop is active (`not self.done`) — call the new scene's *unguarded*
setup body `self._scene.initialize()` directly (not the guarded
`Scene.init`).  The trailing `update_screen()` is rendering and outside the
model. -/
def AppState.setScene (a : AppState) (sid : SceneId) : AppState :=
  let a := { a with active := sid }
  if ¬ a.done then a.mapActive SceneState.runInit else a

/-- A bullet move: `bullet.x += dx` (lines 841 and 851, with `dx = 5` for
player bullets and `-5` for bot bullets). -/
def moveBullet (dx : ℤ) (b : Rect) : Rect := { b with x := b.x + dx }

/-- One bullet loop of `Tutorial.update` (lines 836-844 resp. 846-854),
embedded exactly as the index-based python loop: `n` iterations were fixed
by `range(len(list))` at entry (`fuel` counts the remaining ones), `i` is
the loop index, and an out-of-range access yields `none` (an `IndexError`).
The `Bool` records whether the removal was a paddle hit (stun applied). -/
def bulletLoop (hb mb : Rect) (dx : ℤ) : ℕ → ℕ → List Rect → Option (List Rect × Bool)
  | 0, _, l => some (l, false)
  | fuel + 1, i, l =>
    match l[i]? with
    | none => none
    | some b =>
      if hb.colliderect b then some (l.eraseIdx i, true)
      else
        let l' := l.set i (moveBullet dx b)
        if ¬ mb.contains (moveBullet dx b) then some (l'.eraseIdx i, false)
        else bulletLoop hb mb dx fuel (i + 1) l'

/-- A bullet loop run from the start, with the iteration count fixed to the
list's length at entry, as `for index in range(len(list))` does. -/
def bulletPhase (hb mb : Rect) (dx : ℤ) (l : List Rect) : Option (List Rect × Bool) :=
  bulletLoop hb mb dx l.length 0 l

/-- Structural restatement of the bullet loop, used to reason about
`bulletLoop`: process bullets front to back, stopping at the first removal. -/
def bulletRun (hb mb : Rect) (dx : ℤ) : List Rect → List Rect × Bool
  | [] => ([], false)
  | b :: rest =>
    if hb.colliderect b then (rest, true)
    else if ¬ mb.contains (moveBullet dx b) then (rest, false)
    else
      let p := bulletRun hb mb dx rest
      (moveBullet dx b :: p.1, p.2)

/-- What one bullet loop is claimed to do to its list: it finishes without
an index error, and either every bullet just moved, or exactly one bullet
was removed — the bullets before it moved, the bullets after it untouched. -/
def BulletSpec (hb mb : Rect) (dx : ℤ) (l : List Rect) : Prop :=
  ∃ r : List Rect × Bool, bulletPhase hb mb dx l = some r ∧
    l.length ≤ r.1.length + 1 ∧
    (r.1 = l.map (moveBullet dx) ∨
      ∃ i, i < l.length ∧ r.1 = (l.take i).map (moveBullet dx) ++ l.drop (i + 1))

/-- A game state with the `Game.__init__` paddle layout (lines 371-372),
zero scores, scoring delay 10 (line 383) and a given ball. -/
def mkGame (b : Ball) : GameState :=
  { player := mkPlayer (30, 128)
    bot := mkPlayer (472, 128)
    ball := b
    player_score := 0
    bot_score := 0
    scoring_delay := 10
    scoring_elapse := 0 }

/-- Concrete input for C1: a game whose ball (game-constructed parameters)
sits far outside the despawn bound. -/
def c1game : GameState := mkGame { respawn_ball (0, 0) with pos := (600, 128) }

/-- Concrete input for C5: a ball about to hit a paddle dead-centre
vertically (after the integration step it sits at `(30, 95)`, its centre
directly above the paddle's). -/
def c5ball : Ball := { respawn_ball (3, 4) with pos := (27, 91) }

/-- The paddle the C5 inputs collide with. -/
def c5pad : Player := mkPlayer (30, 100)

/-- Concrete input for the C5 witness: a ball overlapping `c5pad` with an
off-centre offset `(-9, -12)`, whose scaled direction `(-6, -8)` is exactly
representable. -/
def c5wball : Ball := { respawn_ball (2, -3) with pos := (21, 108) }

/-- Concrete input for C6: a game-constructed ball (wall bounce interval 0)
crossing the right wall deep enough that the clamp leaves it overlapping. -/
def c6ball : Ball := { respawn_ball (3, 0) with pos := (505, 100) }

/-- Concrete input for the C6 amended theorem's double-reflection part. -/
def c6ballA : Ball := { respawn_ball (4, 0) with pos := (505, 100) }

/-- The two paddles as `Game.__init__` places them. -/
def gamePads : List Player := [mkPlayer (30, 128), mkPlayer (472, 128)]

/-- Concrete input for the C7 witness: the game's own player paddle. -/
def c7pad : Player := mkPlayer (30, 128)

/-- Concrete input for the C8 witness: a game whose ball rests inside the
left goal band. -/
def c8game : GameState := mkGame { respawn_ball (0, 0) with pos := (25, 100) }

/-- Concrete input for the C9 witness: a paddle below the bottom wall. -/
def c9pad : Player := mkPlayer (30, 300)

/-- Concrete input for C2/C3: the tutorial stage machine at the probe stage
`"2"` with `player_score = 0`, `bot_score = 10` and a game-constructed bot
(control delay 10, forces ±10). -/
def tutBase : TutorialState :=
  { stage := "2"
    player_score := 0
    bot_score := 10
    bot := mkPlayer (472, 128)
    scene := SceneId.tutorial
    stdout_closed := false }

/-- Concrete input for C4: the `App` right after `run()` flips `done` to
`False` and runs the menu's setup body once (line 86-87); no scene has ever
gone through the (never called) guarded `Scene.init`. -/
def c4app : AppState :=
  { done := false
    menu := { initialized := false, initRuns := 1 }
    game := { initialized := false, initRuns := 0 }
    tutorial := { initialized := false, initRuns := 0 }
    active := SceneId.menu }

/-- Concrete input for the C10 witness: the bot hit box and three player
bullets, the second of which overlaps the bot. -/
def c10hb : Rect := ⟨470, 100, 10, 50⟩

/-- The C10 witness bullet list. -/
def c10pls : List Rect := [⟨100, 50, 5, 5⟩, ⟨472, 120, 5, 5⟩, ⟨450, 200, 5, 5⟩]

/-! ## Helper lemmas -/

/-- Evaluation form of `qtrunc` in terms of the floor alone. -/
theorem qtrunc_eval (q : ℚ) : qtrunc q = if 0 ≤ q then ⌊q⌋ else -⌊-q⌋ := by
  rw [qtrunc]
  rcases le_or_lt 0 q with h | h
  · rw [if_pos h, if_pos h]
  · rw [if_neg (not_le.mpr h), if_neg (not_le.mpr h), Int.floor_neg, neg_neg]

/-- Truncation of an integer is itself. -/
theorem qtrunc_intCast (n : ℤ) : qtrunc (n : ℚ) = n := by
  rw [qtrunc]
  rcases le_or_lt 0 ((n : ℚ)) with h | h
  · rw [if_pos h, Int.floor_intCast]
  · rw [if_neg (not_le.mpr h), Int.ceil_intCast]

/-- Lower bound through truncation (nonnegative argument). -/
theorem le_qtrunc_of_le {n : ℤ} {q : ℚ} (h0 : 0 ≤ q) (h : (n : ℚ) ≤ q) : n ≤ qtrunc q := by
  rw [qtrunc, if_pos h0]
  exact Int.le_floor.mpr h

/-- Upper bound through truncation (nonnegative argument). -/
theorem qtrunc_le_of_le {n : ℤ} {q : ℚ} (h0 : 0 ≤ q) (h : q ≤ (n : ℚ)) : qtrunc q ≤ n := by
  rw [qtrunc, if_pos h0]
  have := (Int.floor_le_floor h).trans_eq (Int.floor_intCast n)
  exact this

/-- Strict upper bound through truncation (nonnegative argument). -/
theorem qtrunc_lt_of_lt {n : ℤ} {q : ℚ} (h0 : 0 ≤ q) (h : q < (n : ℚ)) : qtrunc q < n := by
  rw [qtrunc, if_pos h0]
  exact Int.floor_lt.mpr h

/-- The paddle-collision loop never moves the ball. -/
theorem Ball.padsPhase_pos (pads : List Player) (b : Ball) (d : Vec2) :
    (Ball.padsPhase b pads d).pos = b.pos := by
  induction pads generalizing b with
  | nil => rfl
  | cons pad rest ih =>
    unfold Ball.padsPhase
    split
    · rw [ih]; rfl
    · exact ih b

/-- The cooldown tick never moves the ball. -/
theorem Ball.coolTick_pos (b : Ball) : b.coolTick.pos = b.pos := by
  unfold Ball.coolTick
  dsimp only
  split <;> split <;> rfl

/-- `Ball.bounce` does nothing when no edge is crossed. -/
theorem Ball.bounce_eq_self {b : Ball}
    (h1 : ¬ b.hit_box.left < b.walls.left) (h2 : ¬ b.walls.right < b.hit_box.right)
    (h3 : ¬ b.hit_box.top < b.walls.top) (h4 : ¬ b.walls.bottom < b.hit_box.bottom) :
    b.bounce = b := by
  have e1 : b.bounceLeft = b := if_neg h1
  have e2 : b.bounceRight = b := if_neg h2
  have e3 : b.bounceTop = b := if_neg h3
  have e4 : b.bounceBottom = b := if_neg h4
  unfold Ball.bounce
  split
  · rfl
  · rw [e1, e2, e3, e4]

/-- `Ball.clamp_pos` does nothing when no edge is crossed. -/
theorem Ball.clamp_pos_eq_self {b : Ball}
    (h1 : ¬ b.hit_box.left < b.walls.left) (h2 : ¬ b.walls.right < b.hit_box.right)
    (h3 : ¬ b.hit_box.top < b.walls.top) (h4 : ¬ b.walls.bottom < b.hit_box.bottom) :
    b.clamp_pos = b := by
  have e1 : b.clampLeft = b := if_neg h1
  have e2 : b.clampRight = b := if_neg h2
  have e3 : b.clampTop = b := if_neg h3
  have e4 : b.clampBottom = b := if_neg h4
  unfold Ball.clamp_pos
  rw [e1, e2, e3, e4]

/-- The goal callbacks change scores and the cooldown only. -/
theorem GameState.left_collide_ball (g : GameState) : g.left_collide.ball = g.ball := by
  unfold GameState.left_collide; split <;> rfl

theorem GameState.right_collide_ball (g : GameState) : g.right_collide.ball = g.ball := by
  unfold GameState.right_collide; split <;> rfl

theorem GameState.goalsPhase_ball (g : GameState) : g.goalsPhase.ball = g.ball := by
  unfold GameState.goalsPhase
  dsimp only
  split <;> split <;>
    simp only [GameState.right_collide_ball, GameState.left_collide_ball]

theorem GameState.control_bot_ball (g : GameState) : g.control_bot.ball = g.ball := by
  unfold GameState.control_bot
  dsimp only
  split <;> split <;> rfl

theorem GameState.scoreTick_ball (g : GameState) : g.scoreTick.ball = g.ball := by
  unfold GameState.scoreTick; split <;> rfl

/-- After `Game.update`, the ball is exactly the post-physics ball: the goal
callbacks, the bot control and the score tick do not touch it. -/
theorem GameState.update_ball (g : GameState) (rv d : Vec2) :
    (g.update rv d).ball = g.ballAfterPhysics rv d := by
  unfold GameState.update
  rw [GameState.scoreTick_ball, GameState.control_bot_ball, GameState.goalsPhase_ball]
  rfl

/-- Any velocity `respawn_ball` can draw has both components within ±10 and
is nonzero. -/
theorem RespawnVel.bounds {rv : Vec2} (h : RespawnVel rv) :
    -10 ≤ rv.1 ∧ rv.1 ≤ 10 ∧ -10 ≤ rv.2 ∧ rv.2 ≤ 10 ∧ rv ≠ (0, 0) := by
  rcases h with ⟨hx, hn⟩ | h8
  · have h1 : rv.1 ^ 2 ≤ 100 := by nlinarith [sq_nonneg rv.2]
    have h2 : rv.2 ^ 2 ≤ 100 := by nlinarith [sq_nonneg rv.1]
    refine ⟨by nlinarith [sq_nonneg (rv.1 + 10)], by nlinarith [sq_nonneg (rv.1 - 10)],
      by nlinarith [sq_nonneg (rv.2 + 10)], by nlinarith [sq_nonneg (rv.2 - 10)], ?_⟩
    intro h0
    exact hx (congrArg Prod.fst h0)
  · rw [h8]
    refine ⟨by norm_num, by norm_num, by norm_num, by norm_num, by norm_num [Prod.ext_iff]⟩

/-- A freshly respawned ball, advanced one `Ball.update`, ends at the centre
plus its velocity: with both components within ±10 the moved hit box stays
strictly inside the walls, so neither the bounce nor the clamp fires, and
neither the cooldown tick nor the paddle loop moves a ball. -/
theorem respawn_ball_update_pos (rv : Vec2) (pads : List Player) (d : Vec2)
    (h1 : -10 ≤ rv.1) (h2 : rv.1 ≤ 10) (h3 : -10 ≤ rv.2) (h4 : rv.2 ≤ 10) :
    (Ball.update (respawn_ball rv) pads d).pos = (256 + rv.1, 128 + rv.2) := by
  unfold Ball.update
  rw [Ball.padsPhase_pos, Ball.coolTick_pos]
  have hm : (respawn_ball rv).move = { respawn_ball rv with pos := (256 + rv.1, 128 + rv.2) } := rfl
  rw [hm]
  set bm : Ball := { respawn_ball rv with pos := (256 + rv.1, 128 + rv.2) } with hbm
  have hx0 : (0 : ℚ) ≤ 256 + rv.1 + 0 := by linarith
  have hy0 : (0 : ℚ) ≤ 128 + rv.2 + 0 := by linarith
  have c1 : ¬ bm.hit_box.left < bm.walls.left := by
    show ¬ qtrunc (256 + rv.1 + 0) < 20
    have : (246 : ℤ) ≤ qtrunc (256 + rv.1 + 0) :=
      le_qtrunc_of_le hx0 (by push_cast; linarith)
    omega
  have c2 : ¬ bm.walls.right < bm.hit_box.right := by
    show ¬ 20 + 482 < qtrunc (256 + rv.1 + 0) + 10
    have : qtrunc (256 + rv.1 + 0) ≤ 266 :=
      qtrunc_le_of_le hx0 (by push_cast; linarith)
    omega
  have c3 : ¬ bm.hit_box.top < bm.walls.top := by
    show ¬ qtrunc (128 + rv.2 + 0) < 15
    have : (118 : ℤ) ≤ qtrunc (128 + rv.2 + 0) :=
      le_qtrunc_of_le hy0 (by push_cast; linarith)
    omega
  have c4 : ¬ bm.walls.bottom < bm.hit_box.bottom := by
    show ¬ 15 + 221 < qtrunc (128 + rv.2 + 0) + 10
    have : qtrunc (128 + rv.2 + 0) ≤ 138 :=
      qtrunc_le_of_le hy0 (by push_cast; linarith)
    omega
  rw [Ball.bounce_eq_self c1 c2 c3 c4, Ball.clamp_pos_eq_self c1 c2 c3 c4]

/-- C1 (amended): whenever the ball's hit box is not contained in the outer
despawn bound, `Game.update` destroys it and creates a new ball at
`(256, 128)` (the scene-size centre the code uses); the same update then
advances the new ball by its freshly drawn velocity, so the ball position
observed at the end of that tick is `(256 + v.x, 128 + v.y)` — never exactly
the centre, since every drawable respawn velocity is nonzero. -/
theorem c1_respawn_recenters_then_moves (g : GameState) (rv d : Vec2)
    (hout : ¬ gameMaxBounds.contains g.ball.hit_box) (hrv : RespawnVel rv) :
    (respawn_ball rv).pos = (256, 128) ∧
    (g.update rv d).ball.pos = (256 + rv.1, 128 + rv.2) ∧
    (g.update rv d).ball.pos ≠ (256, 128) := by
  obtain ⟨b1, b2, b3, b4, hne⟩ := RespawnVel.bounds hrv
  have hstep : (g.update rv d).ball.pos = (256 + rv.1, 128 + rv.2) := by
    rw [GameState.update_ball]
    unfold GameState.ballAfterPhysics GameState.respawnPhase
    rw [if_pos hout]
    exact respawn_ball_update_pos rv _ d b1 b2 b3 b4
  refine ⟨rfl, hstep, ?_⟩
  rw [hstep]
  intro heq
  apply hne
  have hx := congrArg Prod.fst heq
  have hy := congrArg Prod.snd heq
  simp only [Prod.fst, Prod.snd] at hx hy
  have hx' : rv.1 = 0 := by linarith [hx]
  have hy' : rv.2 = 0 := by linarith [hy]
  exact Prod.ext_iff.mpr ⟨hx', hy'⟩

/-- C1 (counterexample): a concrete game state whose ball is out of the
despawn bound; with the legitimate respawn draw `(8, 9)` the ball position
at the end of the update tick is `(264, 137)`, not the centre `(256, 128)`
(nor the playable-bounds centre `(261, 125.5)`). -/
theorem c1_next_tick_not_center :
    ¬ gameMaxBounds.contains c1game.ball.hit_box ∧ RespawnVel (8, 9) ∧
    (c1game.update (8, 9) (0, 0)).ball.pos = (264, 137) ∧
    (264, 137) ≠ ((256 : ℚ), (128 : ℚ)) ∧
    (264, 137) ≠ ((261 : ℚ), (251 / 2 : ℚ)) := by
  have hout : ¬ gameMaxBounds.contains c1game.ball.hit_box := by
    norm_num [Rect.contains, Rect.left, Rect.right, Rect.top, Rect.bottom,
      gameMaxBounds, c1game, mkGame, respawn_ball, Ball.hit_box, qtrunc_eval]
  refine ⟨hout, Or.inr rfl, ?_, by norm_num [Prod.ext_iff], by norm_num [Prod.ext_iff]⟩
  have hstep : (c1game.update (8, 9) (0, 0)).ball.pos = (256 + 8, 128 + 9) := by
    rw [GameState.update_ball]
    unfold GameState.ballAfterPhysics GameState.respawnPhase
    rw [if_pos hout]
    exact respawn_ball_update_pos (8, 9) _ (0, 0) (by norm_num) (by norm_num)
      (by norm_num) (by norm_num)
  rw [hstep]
  norm_num

/-- C1 (witness): the amended theorem applied at the concrete out-of-bounds
state with the fallback draw `(8, 9)`. -/
theorem c1_respawn_recenters_then_moves_witness :
    ¬ gameMaxBounds.contains c1game.ball.hit_box ∧ RespawnVel (8, 9) ∧
    (respawn_ball (8, 9)).pos = (256, 128) ∧
    (c1game.update (8, 9) (0, 0)).ball.pos = (256 + 8, 128 + 9) := by
  have hout : ¬ gameMaxBounds.contains c1game.ball.hit_box := by
    norm_num [Rect.contains, Rect.left, Rect.right, Rect.top, Rect.bottom,
      gameMaxBounds, c1game, mkGame, respawn_ball, Ball.hit_box, qtrunc_eval]
  have hrv : RespawnVel (8, 9) := Or.inr rfl
  have h := c1_respawn_recenters_then_moves c1game (8, 9) (0, 0) hout hrv
  exact ⟨hout, hrv, h.1, h.2.1⟩

/-- C2 (counterexample): at the probe stage `"2"` with `player_score = 0`
and `bot_score = 10`, `check_stage` transitions to `"2.get_hard"` — the
hard branch's condition (`player*2 ≤ bot ∧ bot ≥ 5`) is tested first and
captures this input — not to the long/escalate branch `"2.get_long"`. -/
theorem c2_probe_goes_hard_not_long :
    tutBase.player_score = 0 ∧ tutBase.bot_score = 10 ∧
    (tutBase.check_stage).stage = "2.get_hard" ∧
    (tutBase.check_stage).stage ≠ "2.get_long" := by
  exact ⟨rfl, rfl, rfl, by decide⟩

/-- C2 (amended): at the probe stage, `player_score = 0, bot_score = 10`
goes to the hard branch (`"2.get_hard"`, which also rewrites the bot's
forces and delay); the long/escalate branch (`"2.get_long"`) needs
`bot_score ≥ 10` with neither ratio branch firing, e.g.
`player_score = 6, bot_score = 10`; and `player_score = 7, bot_score = 0`
goes to the easy branch with the bot's `control_delay` set to 2, as
claimed. -/
theorem c2_probe_transitions :
    (tutBase.check_stage).stage = "2.get_hard" ∧
    (({ tutBase with player_score := 6 } : TutorialState).check_stage).stage = "2.get_long" ∧
    (({ tutBase with player_score := 7, bot_score := 0 } : TutorialState).check_stage).stage
      = "2.get_easy" ∧
    (({ tutBase with player_score := 7, bot_score := 0 } : TutorialState).check_stage).bot.control_delay
      = 2 := by
  exact ⟨rfl, rfl, rfl, rfl⟩

/-- C3 (counterexample): the `"bot gets harder"` branch (probe stage,
player far behind: `0*2 ≤ 10 ∧ 10 ≥ 5`) sets the bot's `control_delay` from
its initial 10 to 2 — it does not double it to 20. -/
theorem c3_get_hard_sets_delay_2_not_20 :
    tutBase.bot.control_delay = 10 ∧
    (tutBase.check_stage).stage = "2.get_hard" ∧
    (tutBase.check_stage).bot.control_delay = 2 ∧
    (tutBase.check_stage).bot.control_delay ≠ 20 := by
  exact ⟨rfl, rfl, rfl, by decide⟩

/-- C3 (amended): whenever `check_stage` runs at the probe/combat stage
`"2"` and the "bot gets harder" condition holds
(`player_score*2 ≤ bot_score ∧ bot_score ≥ 5`), it moves to `"2.get_hard"`
and mutates the bot in place: the impulse magnitude is halved (forces
`(0, ∓10)` become `(0, ∓5)`) and `control_delay` is *set to 2* (not
doubled). -/
theorem c3_get_hard_mutation (t : TutorialState)
    (hs : t.stage = "2") (h1 : t.player_score * 2 ≤ t.bot_score) (h2 : 5 ≤ t.bot_score) :
    (t.check_stage).stage = "2.get_hard" ∧
    (t.check_stage).bot.up_force = (0, -5) ∧
    (t.check_stage).bot.down_force = (0, 5) ∧
    (t.check_stage).bot.control_delay = 2 := by
  unfold TutorialState.check_stage
  rw [if_pos hs, if_pos ⟨h1, h2⟩]
  exact ⟨rfl, rfl, rfl, rfl⟩

/-- C3 (witness): the amended mutation theorem at the concrete probe state
`player_score = 0, bot_score = 10` with a game-constructed bot. -/
theorem c3_get_hard_mutation_witness :
    tutBase.stage = "2" ∧ tutBase.player_score * 2 ≤ tutBase.bot_score ∧
    5 ≤ tutBase.bot_score ∧
    (tutBase.check_stage).bot.up_force = (0, -5) ∧
    (tutBase.check_stage).bot.control_delay = 2 := by
  have h := c3_get_hard_mutation tutBase rfl (by decide) (by decide)
  exact ⟨rfl, by decide, by decide, h.2.1, h.2.2.2⟩

/-- C4 (code bug): with the run loop active (`done = False`), assigning the
already-run Menu scene back into the active slot runs its setup body a
second time, because the `App.scene` setter calls `initialize()` directly
and the guarded `Scene.init` (which would consult the `initialized` flag) is
never called by any code path — the flag stays `False` forever.  The last
conjunct shows the guard itself is idempotent, i.e. the intended behaviour
the spec describes exists in the code but is disconnected. -/
theorem c4_scene_setter_reruns_setup :
    c4app.done = false ∧ c4app.menu.initRuns = 1 ∧
    ((c4app.setScene SceneId.game).setScene SceneId.menu).menu.initRuns = 2 ∧
    ((c4app.setScene SceneId.game).setScene SceneId.menu).game.initRuns = 1 ∧
    ((c4app.setScene SceneId.game).setScene SceneId.menu).menu.initialized = false ∧
    (SceneState.init (SceneState.init ⟨false, 0⟩)).initRuns = 1 := by
  exact ⟨rfl, rfl, rfl, rfl, rfl, rfl⟩

/-- `copysign` preserves the square of the magnitude. -/
theorem copysign_sq (x s : ℚ) : (copysign x s) ^ 2 = x ^ 2 := by
  unfold copysign
  split <;> simp [neg_sq, sq_abs]

/-- `copysign` with a negative sign source is negative (nonzero magnitude). -/
theorem copysign_neg_of {x s : ℚ} (hx : x ≠ 0) (hs : s < 0) : copysign x s < 0 := by
  unfold copysign
  rw [if_pos hs]
  simpa using abs_pos.mpr hx

/-- `copysign` with a positive sign source is positive (nonzero magnitude). -/
theorem copysign_pos_of {x s : ℚ} (hx : x ≠ 0) (hs : 0 < s) : 0 < copysign x s := by
  unfold copysign
  rw [if_neg (not_lt.mpr hs.le)]
  exact abs_pos.mpr hx

/-- C5 (amended): a ball-paddle collision processed while the paddle bounce
cooldown is zero gives the ball squared speed exactly `100` — *except* when
the computed direction has zero x-component (ball and paddle hit box centres
vertically aligned), where the code clamps the x magnitude to 1 and the
squared speed is `101`.  The sign of each resulting component matches the
sign of the corresponding component of `velocity * reflection mask` whenever
that component is nonzero (for y also requiring the computed magnitude to be
nonzero); and the paddle-bounce cooldown is armed with its period. -/
theorem c5_paddle_bounce_speed (b : Ball) (pad : Player) (dirOracle : Vec2)
    (hc : b.hit_box.colliderect pad.hit_box) (he : b.pads_bounce_elapse = 0)
    (hdir : IsScaled10 (b.center_diff pad) dirOracle) :
    ((Ball.padsPhase b [pad] dirOracle).vel.1 ^ 2 +
        (Ball.padsPhase b [pad] dirOracle).vel.2 ^ 2 = 100 ∨
      (dirOracle.1 = 0 ∧
        (Ball.padsPhase b [pad] dirOracle).vel.1 ^ 2 +
          (Ball.padsPhase b [pad] dirOracle).vel.2 ^ 2 = 101)) ∧
    ((multiply_vec b.vel pad.ball_bounce).1 < 0 →
      (Ball.padsPhase b [pad] dirOracle).vel.1 < 0) ∧
    (0 < (multiply_vec b.vel pad.ball_bounce).1 →
      0 < (Ball.padsPhase b [pad] dirOracle).vel.1) ∧
    (dirOracle.2 ≠ 0 → (multiply_vec b.vel pad.ball_bounce).2 < 0 →
      (Ball.padsPhase b [pad] dirOracle).vel.2 < 0) ∧
    (dirOracle.2 ≠ 0 → 0 < (multiply_vec b.vel pad.ball_bounce).2 →
      0 < (Ball.padsPhase b [pad] dirOracle).vel.2) ∧
    (Ball.padsPhase b [pad] dirOracle).pads_bounce_elapse = b.pads_bounce_interval := by
  have hstep : Ball.padsPhase b [pad] dirOracle = b.padCollide pad dirOracle := by
    unfold Ball.padsPhase
    rw [if_pos ⟨hc, he⟩]
    rfl
  have hv1 : (b.padCollide pad dirOracle).vel.1 =
      copysign (if dirOracle.1 = 0 then 1 else dirOracle.1)
        (multiply_vec b.vel pad.ball_bounce).1 := rfl
  have hv2 : (b.padCollide pad dirOracle).vel.2 =
      copysign dirOracle.2 (multiply_vec b.vel pad.ball_bounce).2 := rfl
  have hel : (b.padCollide pad dirOracle).pads_bounce_elapse =
      b.pads_bounce_elapse + b.pads_bounce_interval := rfl
  rw [hstep, hv1, hv2, hel]
  have hvx : (if dirOracle.1 = 0 then (1 : ℚ) else dirOracle.1) ≠ 0 := by
    split
    · norm_num
    · assumption
  refine ⟨?_, fun hs => copysign_neg_of hvx hs, fun hs => copysign_pos_of hvx hs,
    fun hy hs => copysign_neg_of hy hs, fun hy hs => copysign_pos_of hy hs,
    by rw [he, Nat.zero_add]⟩
  rw [copysign_sq, copysign_sq]
  by_cases h0 : dirOracle.1 = 0
  · refine Or.inr ⟨h0, ?_⟩
    rw [if_pos h0]
    rcases hdir with ⟨-, t, -, -, hnorm⟩ | ⟨-, hd⟩
    · rw [h0] at hnorm
      nlinarith [hnorm]
    · rw [hd] at h0
      norm_num at h0
  · refine Or.inl ?_
    rw [if_neg h0]
    rcases hdir with ⟨-, t, -, -, hnorm⟩ | ⟨-, hd⟩
    · exact hnorm
    · rw [hd]
      norm_num

/-- C5 (counterexample): a concrete collision processed with the cooldown at
zero whose resulting velocity is `(-1, 10)` — squared magnitude `101`, i.e.
speed √101 ≠ 10.  The ball (game parameters, velocity `(3, 4)`) moves to
`(30, 95)` during the tick, its hit box centre `(35, 100)` vertically
aligned with the paddle's `(35, 125)`; the direction oracle `(0, -10)` is
exactly `diff/|diff|*10` for the centre offset `(0, -25)`, and the code's
`v_x == 0` clamp then forces the x magnitude to 1. -/
theorem c5_vertical_hit_speed_not_10 :
    c5ball.pads_bounce_elapse = 0 ∧
    Ball.center_diff (c5ball.move.bounce.clamp_pos.coolTick) c5pad = (0, -25) ∧
    IsScaled10 (0, -25) (0, -10) ∧
    (c5ball.move.bounce.clamp_pos.coolTick).hit_box.colliderect c5pad.hit_box ∧
    (Ball.update c5ball [c5pad] (0, -10)).vel = (-1, 10) ∧
    ((-1 : ℚ)) ^ 2 + (10 : ℚ) ^ 2 ≠ 100 := by
  refine ⟨rfl, ?_, ?_, ?_, ?_, by norm_num⟩
  · norm_num [c5ball, c5pad, respawn_ball, mkPlayer, Ball.move, Ball.bounce,
      Ball.bounceLeft, Ball.bounceRight, Ball.bounceTop, Ball.bounceBottom,
      Ball.bounceStep, Ball.clamp_pos, Ball.clampLeft, Ball.clampRight,
      Ball.clampTop, Ball.clampBottom, Ball.coolTick, Ball.hit_box,
      Ball.center_diff, Player.hit_box, Rect.left, Rect.right, Rect.top,
      Rect.bottom, Rect.centerx, Rect.centery, gameBounds, qtrunc_eval,
      Prod.ext_iff]
  · exact Or.inl ⟨by norm_num [Prod.ext_iff], 2/5,
      by norm_num, by norm_num [Prod.ext_iff], by norm_num⟩
  · norm_num [c5ball, c5pad, respawn_ball, mkPlayer, Ball.move, Ball.bounce,
      Ball.bounceLeft, Ball.bounceRight, Ball.bounceTop, Ball.bounceBottom,
      Ball.bounceStep, Ball.clamp_pos, Ball.clampLeft, Ball.clampRight,
      Ball.clampTop, Ball.clampBottom, Ball.coolTick, Ball.hit_box,
      Player.hit_box, Rect.colliderect, Rect.left, Rect.right, Rect.top,
      Rect.bottom, gameBounds, qtrunc_eval]
  · norm_num [c5ball, c5pad, respawn_ball, mkPlayer, Ball.update, Ball.move,
      Ball.bounce, Ball.bounceLeft, Ball.bounceRight, Ball.bounceTop,
      Ball.bounceBottom, Ball.bounceStep, Ball.clamp_pos, Ball.clampLeft,
      Ball.clampRight, Ball.clampTop, Ball.clampBottom, Ball.coolTick,
      Ball.padsPhase, Ball.padCollide, Ball.hit_box, Ball.center_diff,
      Player.hit_box, Rect.colliderect, Rect.left, Rect.right, Rect.top,
      Rect.bottom, Rect.centerx, Rect.centery, gameBounds, qtrunc_eval,
      copysign, multiply_vec, Prod.ext_iff, abs_of_nonneg, abs_of_nonpos]

/-- C5 (witness): the amended theorem at a concrete off-centre collision
(centre offset `(-9, -12)`, oracle `(-6, -8)`, sign source `(-2, -3)`):
squared speed 100 and both components negative as the mask dictates. -/
theorem c5_paddle_bounce_speed_witness :
    c5wball.hit_box.colliderect c5pad.hit_box ∧ c5wball.pads_bounce_elapse = 0 ∧
    IsScaled10 (c5wball.center_diff c5pad) (-6, -8) ∧
    ((Ball.padsPhase c5wball [c5pad] (-6, -8)).vel.1 ^ 2 +
        (Ball.padsPhase c5wball [c5pad] (-6, -8)).vel.2 ^ 2 = 100 ∨
      (((-6 : ℚ), (-8 : ℚ)).1 = 0 ∧
        (Ball.padsPhase c5wball [c5pad] (-6, -8)).vel.1 ^ 2 +
          (Ball.padsPhase c5wball [c5pad] (-6, -8)).vel.2 ^ 2 = 101)) ∧
    ((multiply_vec c5wball.vel c5pad.ball_bounce).1 < 0 →
      (Ball.padsPhase c5wball [c5pad] (-6, -8)).vel.1 < 0) ∧
    (Ball.padsPhase c5wball [c5pad] (-6, -8)).pads_bounce_elapse =
      c5wball.pads_bounce_interval := by
  have hc : c5wball.hit_box.colliderect c5pad.hit_box := by
    norm_num [c5wball, c5pad, respawn_ball, mkPlayer, Ball.hit_box, Player.hit_box,
      Rect.colliderect, Rect.left, Rect.right, Rect.top, Rect.bottom, qtrunc_eval]
  have he : c5wball.pads_bounce_elapse = 0 := rfl
  have hdiff : c5wball.center_diff c5pad = (-9, -12) := by
    norm_num [c5wball, c5pad, respawn_ball, mkPlayer, Ball.hit_box, Player.hit_box,
      Ball.center_diff, Rect.centerx, Rect.centery, qtrunc_eval, Prod.ext_iff]
  have hdir : IsScaled10 (c5wball.center_diff c5pad) (-6, -8) := by
    rw [hdiff]
    exact Or.inl ⟨by norm_num [Prod.ext_iff], 2/3,
      by norm_num, by norm_num [Prod.ext_iff], by norm_num⟩
  have h := c5_paddle_bounce_speed c5wball c5pad (-6, -8) hc he hdir
  exact ⟨hc, he, hdir, h.1, h.2.1, h.2.2.2.2.2⟩

/-- C6 (counterexample): the game's balls are built with wall
`bounce_interval = 0` (`respawn_ball`, line 478), so the wall-bounce
cooldown is never armed.  A concrete game-parameter ball (`pos (505, 100)`,
`vel (3, 0)`, cooldown zero) crosses the right wall: the update negates its
x-velocity once, but the clamp (`pos.x := walls.right + w`) leaves it still
overlapping the wall with the cooldown still at zero, and the *next* update
reflects the same axis again — two reflections for one crossing, with no
cooldown period in between. -/
theorem c6_still_overlapping_reflects_again :
    c6ball.bounce_interval = 0 ∧ c6ball.bounce_elapse = 0 ∧
    (Ball.update c6ball gamePads (0, 0)).vel = (-3, 0) ∧
    gameBounds.right < (Ball.update c6ball gamePads (0, 0)).hit_box.right ∧
    (Ball.update c6ball gamePads (0, 0)).bounce_elapse = 0 ∧
    (Ball.update (Ball.update c6ball gamePads (0, 0)) gamePads (0, 0)).vel = (3, 0) := by
  have h1 : Ball.update c6ball gamePads (0, 0) =
      { c6ball with pos := (512, 100), vel := (-3, 0) } := by
    norm_num [c6ball, gamePads, respawn_ball, mkPlayer, Ball.update, Ball.move,
      Ball.bounce, Ball.bounceLeft, Ball.bounceRight, Ball.bounceTop,
      Ball.bounceBottom, Ball.bounceStep, Ball.clamp_pos, Ball.clampLeft,
      Ball.clampRight, Ball.clampTop, Ball.clampBottom, Ball.coolTick,
      Ball.padsPhase, Ball.padCollide, Ball.hit_box, Player.hit_box,
      Rect.colliderect, Rect.left, Rect.right, Rect.top, Rect.bottom,
      gameBounds, qtrunc_eval, multiply_vec, copysign, Ball.horizontal,
      Ball.vertical, Prod.ext_iff]
  have h2 : Ball.update ({ c6ball with pos := (512, 100), vel := (-3, 0) } : Ball)
      gamePads (0, 0) =
      { c6ball with pos := (512, 100), vel := (3, 0) } := by
    norm_num [c6ball, gamePads, respawn_ball, mkPlayer, Ball.update, Ball.move,
      Ball.bounce, Ball.bounceLeft, Ball.bounceRight, Ball.bounceTop,
      Ball.bounceBottom, Ball.bounceStep, Ball.clamp_pos, Ball.clampLeft,
      Ball.clampRight, Ball.clampTop, Ball.clampBottom, Ball.coolTick,
      Ball.padsPhase, Ball.padCollide, Ball.hit_box, Player.hit_box,
      Rect.colliderect, Rect.left, Rect.right, Rect.top, Rect.bottom,
      gameBounds, qtrunc_eval, multiply_vec, copysign, Ball.horizontal,
      Ball.vertical, Prod.ext_iff]
  rw [h1, h2]
  refine ⟨rfl, rfl, rfl, ?_, rfl, rfl⟩
  norm_num [c6ball, respawn_ball, Ball.hit_box, Rect.right, gameBounds, qtrunc_eval]

/-- C6 (amended): the cooldown does suppress wall reflections while it is
positive (`bounce` is the identity then), but `respawn_ball` configures the
wall bounce interval as 0, so the cooldown is never armed on a game ball: a
game-parameter ball still overlapping the right wall after a reflection
(here `vel (4, 0)` at `(505, 100)`) reflects the same axis again on the very
next update.  "At most one reflection per axis-crossing event" is therefore
not guaranteed by the cooldown. -/
theorem c6_cooldown_only_suppresses_while_armed :
    (∀ b : Ball, 0 < b.bounce_elapse → b.bounce = b) ∧
    (∀ v : Vec2, (respawn_ball v).bounce_interval = 0) ∧
    ((Ball.update c6ballA gamePads (0, 0)).vel = (-4, 0) ∧
      gameBounds.right < (Ball.update c6ballA gamePads (0, 0)).hit_box.right ∧
      (Ball.update (Ball.update c6ballA gamePads (0, 0)) gamePads (0, 0)).vel = (4, 0)) := by
  refine ⟨fun b hb => ?_, fun v => rfl, ?_⟩
  · unfold Ball.bounce
    rw [if_pos hb]
  · have h1 : Ball.update c6ballA gamePads (0, 0) =
        { c6ballA with pos := (512, 100), vel := (-4, 0) } := by
      norm_num [c6ballA, gamePads, respawn_ball, mkPlayer, Ball.update, Ball.move,
        Ball.bounce, Ball.bounceLeft, Ball.bounceRight, Ball.bounceTop,
        Ball.bounceBottom, Ball.bounceStep, Ball.clamp_pos, Ball.clampLeft,
        Ball.clampRight, Ball.clampTop, Ball.clampBottom, Ball.coolTick,
        Ball.padsPhase, Ball.padCollide, Ball.hit_box, Player.hit_box,
        Rect.colliderect, Rect.left, Rect.right, Rect.top, Rect.bottom,
        gameBounds, qtrunc_eval, multiply_vec, copysign, Ball.horizontal,
        Ball.vertical, Prod.ext_iff]
    have h2 : Ball.update ({ c6ballA with pos := (512, 100), vel := (-4, 0) } : Ball)
        gamePads (0, 0) =
        { c6ballA with pos := (512, 100), vel := (4, 0) } := by
      norm_num [c6ballA, gamePads, respawn_ball, mkPlayer, Ball.update, Ball.move,
        Ball.bounce, Ball.bounceLeft, Ball.bounceRight, Ball.bounceTop,
        Ball.bounceBottom, Ball.bounceStep, Ball.clamp_pos, Ball.clampLeft,
        Ball.clampRight, Ball.clampTop, Ball.clampBottom, Ball.coolTick,
        Ball.padsPhase, Ball.padCollide, Ball.hit_box, Player.hit_box,
        Rect.colliderect, Rect.left, Rect.right, Rect.top, Rect.bottom,
        gameBounds, qtrunc_eval, multiply_vec, copysign, Ball.horizontal,
        Ball.vertical, Prod.ext_iff]
    rw [h1, h2]
    refine ⟨rfl, ?_, rfl⟩
    norm_num [c6ballA, respawn_ball, Ball.hit_box, Rect.right, gameBounds, qtrunc_eval]

/-- The clamp steps change the position only. -/
theorem Player.clampLeft_timer (p : Player) :
    p.clampLeft.last_press = p.last_press ∧ p.clampLeft.control_delay = p.control_delay := by
  unfold Player.clampLeft
  split <;> exact ⟨rfl, rfl⟩

theorem Player.clampRight_timer (p : Player) :
    p.clampRight.last_press = p.last_press ∧ p.clampRight.control_delay = p.control_delay := by
  unfold Player.clampRight
  split <;> exact ⟨rfl, rfl⟩

theorem Player.clampTop_timer (p : Player) :
    p.clampTop.last_press = p.last_press ∧ p.clampTop.control_delay = p.control_delay := by
  unfold Player.clampTop
  split <;> exact ⟨rfl, rfl⟩

theorem Player.clampBottom_timer (p : Player) :
    p.clampBottom.last_press = p.last_press ∧ p.clampBottom.control_delay = p.control_delay := by
  unfold Player.clampBottom
  split <;> exact ⟨rfl, rfl⟩

theorem Player.clamp_pos_timer (p : Player) :
    p.clamp_pos.last_press = p.last_press ∧ p.clamp_pos.control_delay = p.control_delay := by
  unfold Player.clamp_pos
  rw [(Player.clampBottom_timer _).1, (Player.clampTop_timer _).1,
    (Player.clampRight_timer _).1, (Player.clampLeft_timer _).1,
    (Player.clampBottom_timer _).2, (Player.clampTop_timer _).2,
    (Player.clampRight_timer _).2, (Player.clampLeft_timer _).2]
  exact ⟨rfl, rfl⟩

/-- One paddle update decrements the control-delay timer (saturating at 0)
and keeps the configured delay. -/
theorem Player.update_timer (p : Player) :
    p.update.last_press = p.last_press - 1 ∧ p.update.control_delay = p.control_delay := by
  unfold Player.update Player.tickTimer
  have h1 := (Player.clamp_pos_timer (p.move.applyFriction)).1
  have h2 := (Player.clamp_pos_timer (p.move.applyFriction)).2
  have hm1 : (p.move.applyFriction).last_press = p.last_press := rfl
  have hm2 : (p.move.applyFriction).control_delay = p.control_delay := rfl
  rw [hm1] at h1
  rw [hm2] at h2
  split
  · next h => exact ⟨by simpa using congrArg (fun n => n - 1) h1, h2⟩
  · next h =>
    rw [h1] at h
    have : p.last_press = 0 := by omega
    rw [h1, h2, this]
    exact ⟨rfl, rfl⟩

/-- Iterated paddle updates subtract the tick count from the timer. -/
theorem Player.iterate_update_timer (k : ℕ) (p : Player) :
    (Player.update^[k] p).last_press = p.last_press - k ∧
    (Player.update^[k] p).control_delay = p.control_delay := by
  induction k generalizing p with
  | zero => exact ⟨rfl, rfl⟩
  | succ n ih =>
    rw [Function.iterate_succ_apply]
    obtain ⟨h1, h2⟩ := ih p.update
    rw [h1, h2, (Player.update_timer p).1, (Player.update_timer p).2]
    exact ⟨by omega, rfl⟩

/-- A `control` call issued while the timer is nonzero only records the mode
in the move buffer (lines 164-165). -/
theorem Player.control_buffered {q : Player} (h : q.last_press ≠ 0) (m' : ℕ) :
    q.control m' = { q with move_buffer := m' } := by
  unfold Player.control
  rw [if_pos h]

/-- C7 (confirmed): with the timer at zero, a `control` call with a valid
mode applies exactly one impulse, arms the timer with `control_delay` and
clears the buffer; any second `control` call issued within `control_delay`
ticks (k updates later, `k < control_delay`) sees a positive timer and only
records its mode in the move buffer — the whole state is otherwise
untouched, in particular velocity and timer. -/
theorem c7_control_debounced (p : Player) (m m' k : ℕ)
    (h0 : p.last_press = 0) (hm : m = 1 ∨ m = 2) (_hm' : m' = 1 ∨ m' = 2)
    (hk : k < p.control_delay) :
    (p.control m).vel = (p.vel.1 + (if m = 1 then p.up_force.1 else p.down_force.1),
                         p.vel.2 + (if m = 1 then p.up_force.2 else p.down_force.2)) ∧
    (p.control m).last_press = p.control_delay ∧
    (p.control m).move_buffer = 0 ∧
    0 < (Player.update^[k] (p.control m)).last_press ∧
    (Player.update^[k] (p.control m)).control m' =
      { Player.update^[k] (p.control m) with move_buffer := m' } := by
  have hfirst : ¬ p.last_press ≠ 0 := by omega
  have hc : p.control m =
      (if m = 1 then
        { p.up with last_press := p.last_press + p.control_delay, move_buffer := 0 }
      else
        { p.down with last_press := p.last_press + p.control_delay, move_buffer := 0 }) := by
    unfold Player.control
    rcases hm with h | h <;> rw [h] <;> simp [hfirst]
  have hlp : (p.control m).last_press = p.control_delay := by
    rw [hc]
    split <;> (show p.last_press + p.control_delay = p.control_delay; omega)
  have hpos : 0 < (Player.update^[k] (p.control m)).last_press := by
    rw [(Player.iterate_update_timer k (p.control m)).1, hlp]
    omega
  refine ⟨?_, hlp, ?_, hpos, ?_⟩
  · rw [hc]
    rcases hm with h | h <;> rw [h] <;> norm_num [Player.up, Player.down]
  · rw [hc]
    split <;> rfl
  · exact Player.control_buffered
      (show (Player.update^[k] (p.control m)).last_press ≠ 0 by omega) m'

/-- C7 (witness): the debounce theorem on the game's own player paddle
(`control_delay = 10`), pressing up then down 3 ticks later. -/
theorem c7_control_debounced_witness :
    c7pad.last_press = 0 ∧ ((1 : ℕ) = 1 ∨ (1 : ℕ) = 2) ∧ ((2 : ℕ) = 1 ∨ (2 : ℕ) = 2) ∧
    3 < c7pad.control_delay ∧
    (c7pad.control 1).last_press = c7pad.control_delay ∧
    (Player.update^[3] (c7pad.control 1)).control 2 =
      { Player.update^[3] (c7pad.control 1) with move_buffer := 2 } := by
  have h := c7_control_debounced c7pad 1 2 3 rfl (Or.inl rfl) (Or.inr rfl) (by decide)
  exact ⟨rfl, Or.inl rfl, Or.inr rfl, by decide, h.2.1, h.2.2.2.2⟩

/-- A goal callback is silently a no-op while the cooldown is positive. -/
theorem GameState.left_collide_of_ne (g : GameState) (h : g.scoring_elapse ≠ 0) :
    g.left_collide = g := if_pos h

theorem GameState.right_collide_of_ne (g : GameState) (h : g.scoring_elapse ≠ 0) :
    g.right_collide = g := if_pos h

/-- The respawn check touches only the ball. -/
theorem GameState.respawnPhase_meta (g : GameState) (rv : Vec2) :
    (g.respawnPhase rv).player_score = g.player_score ∧
    (g.respawnPhase rv).bot_score = g.bot_score ∧
    (g.respawnPhase rv).scoring_elapse = g.scoring_elapse ∧
    (g.respawnPhase rv).scoring_delay = g.scoring_delay := by
  unfold GameState.respawnPhase
  split <;> exact ⟨rfl, rfl, rfl, rfl⟩

/-- Everything up to the goal checks leaves scores and cooldown alone. -/
theorem GameState.preGoals_meta (g : GameState) (rv d : Vec2) :
    (g.preGoals rv d).player_score = g.player_score ∧
    (g.preGoals rv d).bot_score = g.bot_score ∧
    (g.preGoals rv d).scoring_elapse = g.scoring_elapse ∧
    (g.preGoals rv d).scoring_delay = g.scoring_delay := by
  exact GameState.respawnPhase_meta g rv

/-- Bot control touches only the bot paddle. -/
theorem GameState.control_bot_meta (g : GameState) :
    g.control_bot.player_score = g.player_score ∧
    g.control_bot.bot_score = g.bot_score ∧
    g.control_bot.scoring_elapse = g.scoring_elapse ∧
    g.control_bot.scoring_delay = g.scoring_delay := by
  unfold GameState.control_bot
  dsimp only
  split <;> split <;> exact ⟨rfl, rfl, rfl, rfl⟩

/-- The score-cooldown tick decrements the cooldown (saturating) and leaves
the scores alone. -/
theorem GameState.scoreTick_meta (g : GameState) :
    g.scoreTick.player_score = g.player_score ∧
    g.scoreTick.bot_score = g.bot_score ∧
    g.scoreTick.scoring_elapse = g.scoring_elapse - 1 := by
  unfold GameState.scoreTick
  split
  · exact ⟨rfl, rfl, rfl⟩
  · next h => exact ⟨rfl, rfl, by omega⟩

/-- Goal phase, left-goal overlap, cooldown at zero: the bot scores once and
the cooldown is set to the full period; a simultaneous right overlap is
already suppressed by the newly armed cooldown. -/
theorem GameState.goalsPhase_left {g : GameState}
    (hcol : leftGoalRect.colliderect g.ball.hit_box)
    (he : g.scoring_elapse = 0) (hd : g.scoring_delay = 10) :
    g.goalsPhase.bot_score = g.bot_score + 1 ∧
    g.goalsPhase.player_score = g.player_score ∧
    g.goalsPhase.scoring_elapse = 10 := by
  have hne : ¬ g.scoring_elapse ≠ 0 := by omega
  have hl : g.left_collide =
      { g with
          bot_score := g.bot_score + 1
          scoring_elapse := g.scoring_elapse + g.scoring_delay } := by
    unfold GameState.left_collide
    rw [if_neg hne]
  have hr : ({ g with
                 bot_score := g.bot_score + 1
                 scoring_elapse := g.scoring_elapse + g.scoring_delay } : GameState).right_collide =
      { g with
          bot_score := g.bot_score + 1
          scoring_elapse := g.scoring_elapse + g.scoring_delay } := by
    apply GameState.right_collide_of_ne
    show g.scoring_elapse + g.scoring_delay ≠ 0
    omega
  unfold GameState.goalsPhase
  dsimp only
  rw [if_pos hcol, hl]
  split
  · rw [hr]
    exact ⟨rfl, rfl, by show g.scoring_elapse + g.scoring_delay = 10; omega⟩
  · exact ⟨rfl, rfl, by show g.scoring_elapse + g.scoring_delay = 10; omega⟩

/-- Goal phase, right-goal overlap only, cooldown at zero: the player scores
once and the cooldown is set to the full period. -/
theorem GameState.goalsPhase_right {g : GameState}
    (hnl : ¬ leftGoalRect.colliderect g.ball.hit_box)
    (hcol : rightGoalRect.colliderect g.ball.hit_box)
    (he : g.scoring_elapse = 0) (hd : g.scoring_delay = 10) :
    g.goalsPhase.player_score = g.player_score + 1 ∧
    g.goalsPhase.bot_score = g.bot_score ∧
    g.goalsPhase.scoring_elapse = 10 := by
  have hne : ¬ g.scoring_elapse ≠ 0 := by omega
  have hr : g.right_collide =
      { g with
          player_score := g.player_score + 1
          scoring_elapse := g.scoring_elapse + g.scoring_delay } := by
    unfold GameState.right_collide
    rw [if_neg hne]
  unfold GameState.goalsPhase
  dsimp only
  rw [if_neg hnl, if_pos hcol, hr]
  exact ⟨rfl, rfl, by show g.scoring_elapse + g.scoring_delay = 10; omega⟩

/-- Goal phase with the cooldown positive: both callbacks are silent
no-ops. -/
theorem GameState.goalsPhase_of_cooldown {g : GameState} (he : 0 < g.scoring_elapse) :
    g.goalsPhase = g := by
  have hne : g.scoring_elapse ≠ 0 := by omega
  have hl := GameState.left_collide_of_ne g hne
  have hr := GameState.right_collide_of_ne g hne
  unfold GameState.goalsPhase
  dsimp only
  split
  · rw [hl]
    split
    · rw [hr]
    · rfl
  · split
    · rw [hr]
    · rfl

/-- C8 (confirmed): on a tick where the post-physics ball hit box overlaps a
goal region with the post-score cooldown at zero, exactly one score rises by
exactly 1 (left goal → bot, right goal → player) and the callback sets the
cooldown to its configured period 10 (the same tick's trailing cooldown tick
then shows 9 at the tick boundary); any goal overlap while the cooldown is
positive changes neither score — a silent no-op, no error. -/
theorem c8_goal_scoring (g : GameState) (rv d : Vec2) (hd : g.scoring_delay = 10) :
    (g.scoring_elapse = 0 → leftGoalRect.colliderect (g.ballAfterPhysics rv d).hit_box →
      (g.update rv d).bot_score = g.bot_score + 1 ∧
      (g.update rv d).player_score = g.player_score ∧
      (g.update rv d).scoring_elapse = 9) ∧
    (g.scoring_elapse = 0 → ¬ leftGoalRect.colliderect (g.ballAfterPhysics rv d).hit_box →
      rightGoalRect.colliderect (g.ballAfterPhysics rv d).hit_box →
      (g.update rv d).player_score = g.player_score + 1 ∧
      (g.update rv d).bot_score = g.bot_score ∧
      (g.update rv d).scoring_elapse = 9) ∧
    (0 < g.scoring_elapse →
      (g.update rv d).player_score = g.player_score ∧
      (g.update rv d).bot_score = g.bot_score) ∧
    (∀ h : GameState, h.scoring_elapse = 0 → h.scoring_delay = 10 →
      h.left_collide.bot_score = h.bot_score + 1 ∧
      h.left_collide.player_score = h.player_score ∧
      h.left_collide.scoring_elapse = 10 ∧
      h.right_collide.player_score = h.player_score + 1 ∧
      h.right_collide.bot_score = h.bot_score ∧
      h.right_collide.scoring_elapse = 10) := by
  have hupdate : g.update rv d = (g.preGoals rv d).goalsPhase.control_bot.scoreTick := rfl
  obtain ⟨m1, m2, m3, m4⟩ := GameState.preGoals_meta g rv d
  refine ⟨?_, ?_, ?_, ?_⟩
  · intro he hcol
    have hcol' : leftGoalRect.colliderect (g.preGoals rv d).ball.hit_box := hcol
    have he' : (g.preGoals rv d).scoring_elapse = 0 := by rw [m3, he]
    have hd' : (g.preGoals rv d).scoring_delay = 10 := by rw [m4, hd]
    obtain ⟨e1, e2, e3⟩ := GameState.goalsPhase_left hcol' he' hd'
    obtain ⟨cb1, cb2, cb3, -⟩ := GameState.control_bot_meta ((g.preGoals rv d).goalsPhase)
    obtain ⟨st1, st2, st3⟩ :=
      GameState.scoreTick_meta (((g.preGoals rv d).goalsPhase).control_bot)
    rw [hupdate]
    refine ⟨?_, ?_, ?_⟩
    · rw [st2, cb2, e1, m2]
    · rw [st1, cb1, e2, m1]
    · rw [st3, cb3, e3]
  · intro he hnl hcol
    have hnl' : ¬ leftGoalRect.colliderect (g.preGoals rv d).ball.hit_box := hnl
    have hcol' : rightGoalRect.colliderect (g.preGoals rv d).ball.hit_box := hcol
    have he' : (g.preGoals rv d).scoring_elapse = 0 := by rw [m3, he]
    have hd' : (g.preGoals rv d).scoring_delay = 10 := by rw [m4, hd]
    obtain ⟨e1, e2, e3⟩ := GameState.goalsPhase_right hnl' hcol' he' hd'
    obtain ⟨cb1, cb2, cb3, -⟩ := GameState.control_bot_meta ((g.preGoals rv d).goalsPhase)
    obtain ⟨st1, st2, st3⟩ :=
      GameState.scoreTick_meta (((g.preGoals rv d).goalsPhase).control_bot)
    rw [hupdate]
    refine ⟨?_, ?_, ?_⟩
    · rw [st1, cb1, e1, m1]
    · rw [st2, cb2, e2, m2]
    · rw [st3, cb3, e3]
  · intro he
    have he' : 0 < (g.preGoals rv d).scoring_elapse := by rw [m3]; exact he
    have hgp := GameState.goalsPhase_of_cooldown he'
    obtain ⟨cb1, cb2, -, -⟩ := GameState.control_bot_meta (g.preGoals rv d)
    obtain ⟨st1, st2, -⟩ := GameState.scoreTick_meta ((g.preGoals rv d).control_bot)
    rw [hupdate, hgp]
    exact ⟨by rw [st1, cb1, m1], by rw [st2, cb2, m2]⟩
  · intro h he hd'
    have hne : ¬ h.scoring_elapse ≠ 0 := by omega
    have hl : h.left_collide =
        { h with
            bot_score := h.bot_score + 1
            scoring_elapse := h.scoring_elapse + h.scoring_delay } := by
      unfold GameState.left_collide
      rw [if_neg hne]
    have hr : h.right_collide =
        { h with
            player_score := h.player_score + 1
            scoring_elapse := h.scoring_elapse + h.scoring_delay } := by
      unfold GameState.right_collide
      rw [if_neg hne]
    rw [hl, hr]
    exact ⟨rfl, rfl, by show h.scoring_elapse + h.scoring_delay = 10; omega,
      rfl, rfl, by show h.scoring_elapse + h.scoring_delay = 10; omega⟩

/-- C8 (witness): the scoring theorem at a concrete state whose ball sits in
the left goal band with the cooldown at zero: the bot's score rises to 1,
the player's stays 0 and the cooldown shows 9 at the end of the tick. -/
theorem c8_goal_scoring_witness :
    c8game.scoring_delay = 10 ∧ c8game.scoring_elapse = 0 ∧
    leftGoalRect.colliderect (c8game.ballAfterPhysics (0, 0) (0, 0)).hit_box ∧
    ((c8game.update (0, 0) (0, 0)).bot_score = c8game.bot_score + 1 ∧
      (c8game.update (0, 0) (0, 0)).player_score = c8game.player_score ∧
      (c8game.update (0, 0) (0, 0)).scoring_elapse = 9) := by
  have hcol : leftGoalRect.colliderect (c8game.ballAfterPhysics (0, 0) (0, 0)).hit_box := by
    norm_num [c8game, mkGame, respawn_ball, mkPlayer, GameState.ballAfterPhysics,
      GameState.respawnPhase, GameState.playersPhase, Ball.update, Ball.move,
      Ball.bounce, Ball.bounceLeft, Ball.bounceRight, Ball.bounceTop,
      Ball.bounceBottom, Ball.bounceStep, Ball.clamp_pos, Ball.clampLeft,
      Ball.clampRight, Ball.clampTop, Ball.clampBottom, Ball.coolTick,
      Ball.padsPhase, Ball.padCollide, Ball.hit_box, Player.hit_box,
      Player.update, Player.move, Player.applyFriction, Player.clamp_pos,
      Player.clampLeft, Player.clampRight, Player.clampTop, Player.clampBottom,
      Player.tickTimer, Player.friction, Rect.colliderect, Rect.contains,
      Rect.left, Rect.right, Rect.top, Rect.bottom, gameBounds, gameMaxBounds,
      leftGoalRect, qtrunc_eval, multiply_vec, copysign]
  have h := c8_goal_scoring c8game (0, 0) (0, 0) rfl
  exact ⟨rfl, rfl, hcol, h.1 rfl hcol⟩

theorem qtrunc_21 : qtrunc (21 : ℚ) = 21 := by rw [qtrunc_eval]; norm_num

theorem qtrunc_491 : qtrunc (491 : ℚ) = 491 := by rw [qtrunc_eval]; norm_num

theorem qtrunc_16 : qtrunc (16 : ℚ) = 16 := by rw [qtrunc_eval]; norm_num

theorem qtrunc_185 : qtrunc (185 : ℚ) = 185 := by rw [qtrunc_eval]; norm_num

/-- What the two x-axis clamp steps do to a game paddle: snap to 21 when the
hit box crossed the left wall, else to 491 when it crossed the right wall,
else nothing; y and the configuration fields are untouched. -/
theorem Player.clampLR_spec (q : Player)
    (hw : q.walls = gameBounds) (hr : q.hitBoxRect = (⟨0, 0, 10, 50⟩ : Rect))
    (ho : q.hit_box_offset = (0, 0)) :
    q.clampLeft.clampRight.pos.1 =
      (if qtrunc q.pos.1 < 20 then (21 : ℚ)
       else if 502 < qtrunc q.pos.1 + 10 then 491 else q.pos.1) ∧
    q.clampLeft.clampRight.pos.2 = q.pos.2 ∧
    q.clampLeft.clampRight.walls = gameBounds ∧
    q.clampLeft.clampRight.hitBoxRect = (⟨0, 0, 10, 50⟩ : Rect) ∧
    q.clampLeft.clampRight.hit_box_offset = (0, 0) := by
  by_cases hx1 : qtrunc q.pos.1 < 20
  · have s1 : q.clampLeft = { q with pos := ((21 : ℚ), q.pos.2) } := by
      unfold Player.clampLeft
      rw [if_pos (show q.hit_box.left < q.walls.left by
        simp only [Player.hit_box, Rect.left, ho, hw, gameBounds, add_zero]
        exact hx1)]
      rw [hw]
      norm_num [gameBounds, Rect.left]
    have s2 : ({ q with pos := ((21 : ℚ), q.pos.2) } : Player).clampRight =
        { q with pos := ((21 : ℚ), q.pos.2) } := by
      unfold Player.clampRight
      rw [if_neg (show ¬ ({ q with pos := ((21 : ℚ), q.pos.2) } : Player).walls.right <
          ({ q with pos := ((21 : ℚ), q.pos.2) } : Player).hit_box.right by
        simp only [Player.hit_box, Rect.right, ho, hr, hw, gameBounds, add_zero]
        norm_num [qtrunc_21])]
    rw [s1, s2, if_pos hx1]
    exact ⟨rfl, rfl, hw, hr, ho⟩
  · have s1 : q.clampLeft = q := by
      unfold Player.clampLeft
      rw [if_neg (show ¬ q.hit_box.left < q.walls.left by
        simp only [Player.hit_box, Rect.left, ho, hw, gameBounds, add_zero]
        exact hx1)]
    rw [s1]
    by_cases hx2 : 502 < qtrunc q.pos.1 + 10
    · have s2 : q.clampRight = { q with pos := ((491 : ℚ), q.pos.2) } := by
        unfold Player.clampRight
        rw [if_pos (show q.walls.right < q.hit_box.right by
          simp only [Player.hit_box, Rect.right, ho, hr, hw, gameBounds, add_zero]
          exact hx2)]
        rw [hw, hr]
        norm_num [gameBounds, Rect.right, Player.hit_box, hr]
      rw [s2, if_neg hx1, if_pos hx2]
      exact ⟨rfl, rfl, hw, hr, ho⟩
    · have s2 : q.clampRight = q := by
        unfold Player.clampRight
        rw [if_neg (show ¬ q.walls.right < q.hit_box.right by
          simp only [Player.hit_box, Rect.right, ho, hr, hw, gameBounds, add_zero]
          exact hx2)]
      rw [s2, if_neg hx1, if_neg hx2]
      exact ⟨rfl, rfl, hw, hr, ho⟩

/-- What the two y-axis clamp steps do to a game paddle. -/
theorem Player.clampTB_spec (q : Player)
    (hw : q.walls = gameBounds) (hr : q.hitBoxRect = (⟨0, 0, 10, 50⟩ : Rect))
    (ho : q.hit_box_offset = (0, 0)) :
    q.clampTop.clampBottom.pos.2 =
      (if qtrunc q.pos.2 < 15 then (16 : ℚ)
       else if 236 < qtrunc q.pos.2 + 50 then 185 else q.pos.2) ∧
    q.clampTop.clampBottom.pos.1 = q.pos.1 ∧
    q.clampTop.clampBottom.walls = gameBounds ∧
    q.clampTop.clampBottom.hitBoxRect = (⟨0, 0, 10, 50⟩ : Rect) ∧
    q.clampTop.clampBottom.hit_box_offset = (0, 0) := by
  by_cases hy1 : qtrunc q.pos.2 < 15
  · have s1 : q.clampTop = { q with pos := (q.pos.1, (16 : ℚ)) } := by
      unfold Player.clampTop
      rw [if_pos (show q.hit_box.top < q.walls.top by
        simp only [Player.hit_box, Rect.top, ho, hw, gameBounds, add_zero]
        exact hy1)]
      rw [hw]
      norm_num [gameBounds, Rect.top]
    have s2 : ({ q with pos := (q.pos.1, (16 : ℚ)) } : Player).clampBottom =
        { q with pos := (q.pos.1, (16 : ℚ)) } := by
      unfold Player.clampBottom
      rw [if_neg (show ¬ ({ q with pos := (q.pos.1, (16 : ℚ)) } : Player).walls.bottom <
          ({ q with pos := (q.pos.1, (16 : ℚ)) } : Player).hit_box.bottom by
        simp only [Player.hit_box, Rect.bottom, ho, hr, hw, gameBounds, add_zero]
        norm_num [qtrunc_16])]
    rw [s1, s2, if_pos hy1]
    exact ⟨rfl, rfl, hw, hr, ho⟩
  · have s1 : q.clampTop = q := by
      unfold Player.clampTop
      rw [if_neg (show ¬ q.hit_box.top < q.walls.top by
        simp only [Player.hit_box, Rect.top, ho, hw, gameBounds, add_zero]
        exact hy1)]
    rw [s1]
    by_cases hy2 : 236 < qtrunc q.pos.2 + 50
    · have s2 : q.clampBottom = { q with pos := (q.pos.1, (185 : ℚ)) } := by
        unfold Player.clampBottom
        rw [if_pos (show q.walls.bottom < q.hit_box.bottom by
          simp only [Player.hit_box, Rect.bottom, ho, hr, hw, gameBounds, add_zero]
          exact hy2)]
        rw [hw, hr]
        norm_num [gameBounds, Rect.bottom, Player.hit_box, hr]
      rw [s2, if_neg hy1, if_pos hy2]
      exact ⟨rfl, rfl, hw, hr, ho⟩
    · have s2 : q.clampBottom = q := by
        unfold Player.clampBottom
        rw [if_neg (show ¬ q.walls.bottom < q.hit_box.bottom by
          simp only [Player.hit_box, Rect.bottom, ho, hr, hw, gameBounds, add_zero]
          exact hy2)]
      rw [s2, if_neg hy1, if_neg hy2]
      exact ⟨rfl, rfl, hw, hr, ho⟩

/-- The timer tick changes no geometry. -/
theorem Player.tickTimer_meta (p : Player) :
    p.tickTimer.pos = p.pos ∧ p.tickTimer.walls = p.walls ∧
    p.tickTimer.hitBoxRect = p.hitBoxRect ∧
    p.tickTimer.hit_box_offset = p.hit_box_offset := by
  unfold Player.tickTimer
  split <;> exact ⟨rfl, rfl, rfl, rfl⟩

/-- Full characterisation of `clamp_pos` on a game paddle: each axis is
snapped one unit inside the crossed wall edge, independently. -/
theorem Player.clamp_pos_spec (q : Player)
    (hw : q.walls = gameBounds) (hr : q.hitBoxRect = (⟨0, 0, 10, 50⟩ : Rect))
    (ho : q.hit_box_offset = (0, 0)) :
    q.clamp_pos.pos.1 =
      (if qtrunc q.pos.1 < 20 then (21 : ℚ)
       else if 502 < qtrunc q.pos.1 + 10 then 491 else q.pos.1) ∧
    q.clamp_pos.pos.2 =
      (if qtrunc q.pos.2 < 15 then (16 : ℚ)
       else if 236 < qtrunc q.pos.2 + 50 then 185 else q.pos.2) ∧
    q.clamp_pos.walls = gameBounds ∧
    q.clamp_pos.hitBoxRect = (⟨0, 0, 10, 50⟩ : Rect) ∧
    q.clamp_pos.hit_box_offset = (0, 0) := by
  obtain ⟨a1, a2, a3, a4, a5⟩ := Player.clampLR_spec q hw hr ho
  obtain ⟨b1, b2, b3, b4, b5⟩ := Player.clampTB_spec (q.clampLeft.clampRight) a3 a4 a5
  rw [a2] at b1
  unfold Player.clamp_pos
  exact ⟨by rw [b2, a1], b1, b3, b4, b5⟩

/-- C9 (confirmed): after `Player.update` on a game paddle, every hit box
edge lies inside (not merely within 1 unit of) the bounds rectangle; and
whenever the integrated position's hit box crosses a bound edge during the
update, the position is snapped exactly 1 unit inside that edge (left → 21,
right → 491, top → 16, bottom → 185) — a stop, not a reflection. -/
theorem c9_paddle_clamped (p : Player)
    (hw : p.walls = gameBounds) (hr : p.hitBoxRect = (⟨0, 0, 10, 50⟩ : Rect))
    (ho : p.hit_box_offset = (0, 0)) :
    (gameBounds.left ≤ p.update.hit_box.left ∧
     p.update.hit_box.right ≤ gameBounds.right ∧
     gameBounds.top ≤ p.update.hit_box.top ∧
     p.update.hit_box.bottom ≤ gameBounds.bottom) ∧
    (qtrunc (p.pos.1 + p.vel.1) < 20 → p.update.pos.1 = 21) ∧
    (¬ qtrunc (p.pos.1 + p.vel.1) < 20 → 502 < qtrunc (p.pos.1 + p.vel.1) + 10 →
      p.update.pos.1 = 491) ∧
    (qtrunc (p.pos.2 + p.vel.2) < 15 → p.update.pos.2 = 16) ∧
    (¬ qtrunc (p.pos.2 + p.vel.2) < 15 → 236 < qtrunc (p.pos.2 + p.vel.2) + 50 →
      p.update.pos.2 = 185) := by
  obtain ⟨c1, c2, c3, c4, c5⟩ := Player.clamp_pos_spec (p.move.applyFriction) hw hr ho
  have hmx : (p.move.applyFriction).pos.1 = p.pos.1 + p.vel.1 := rfl
  have hmy : (p.move.applyFriction).pos.2 = p.pos.2 + p.vel.2 := rfl
  rw [hmx] at c1
  rw [hmy] at c2
  have hupd : p.update = (p.move.applyFriction).clamp_pos.tickTimer := rfl
  obtain ⟨t1, t2, t3, t4⟩ := Player.tickTimer_meta (p.move.applyFriction).clamp_pos
  have f1 : p.update.pos.1 =
      (if qtrunc (p.pos.1 + p.vel.1) < 20 then (21 : ℚ)
       else if 502 < qtrunc (p.pos.1 + p.vel.1) + 10 then 491 else p.pos.1 + p.vel.1) := by
    rw [hupd, show ((p.move.applyFriction).clamp_pos.tickTimer).pos.1 =
      ((p.move.applyFriction).clamp_pos).pos.1 from congrArg Prod.fst t1, c1]
  have f2 : p.update.pos.2 =
      (if qtrunc (p.pos.2 + p.vel.2) < 15 then (16 : ℚ)
       else if 236 < qtrunc (p.pos.2 + p.vel.2) + 50 then 185 else p.pos.2 + p.vel.2) := by
    rw [hupd, show ((p.move.applyFriction).clamp_pos.tickTimer).pos.2 =
      ((p.move.applyFriction).clamp_pos).pos.2 from congrArg Prod.snd t1, c2]
  have hbox : p.update.hit_box =
      ⟨qtrunc p.update.pos.1, qtrunc p.update.pos.2, 10, 50⟩ := by
    have ho' : p.update.hit_box_offset = (0, 0) := by rw [hupd, t4, c5]
    have hr' : p.update.hitBoxRect = (⟨0, 0, 10, 50⟩ : Rect) := by rw [hupd, t3, c4]
    unfold Player.hit_box
    rw [ho', hr']
    norm_num
  refine ⟨?_, ?_, ?_, ?_, ?_⟩
  · rw [hbox]
    have hx : (20 : ℤ) ≤ qtrunc p.update.pos.1 ∧ qtrunc p.update.pos.1 + 10 ≤ 502 := by
      rw [f1]
      by_cases h1 : qtrunc (p.pos.1 + p.vel.1) < 20
      · rw [if_pos h1, qtrunc_21]
        omega
      · by_cases h2 : 502 < qtrunc (p.pos.1 + p.vel.1) + 10
        · rw [if_neg h1, if_pos h2, qtrunc_491]
          omega
        · rw [if_neg h1, if_neg h2]
          omega
    have hy : (15 : ℤ) ≤ qtrunc p.update.pos.2 ∧ qtrunc p.update.pos.2 + 50 ≤ 236 := by
      rw [f2]
      by_cases h1 : qtrunc (p.pos.2 + p.vel.2) < 15
      · rw [if_pos h1, qtrunc_16]
        omega
      · by_cases h2 : 236 < qtrunc (p.pos.2 + p.vel.2) + 50
        · rw [if_neg h1, if_pos h2, qtrunc_185]
          omega
        · rw [if_neg h1, if_neg h2]
          omega
    exact ⟨hx.1, hx.2, hy.1, hy.2⟩
  · intro h
    rw [f1, if_pos h]
  · intro h1 h2
    rw [f1, if_neg h1, if_pos h2]
  · intro h
    rw [f2, if_pos h]
  · intro h1 h2
    rw [f2, if_neg h1, if_pos h2]

/-- C9 (witness): the game's paddle configuration dropped below the bottom
wall (`pos (30, 300)`): the update snaps it to `y = 185` (one unit inside)
and its hit box lies inside the bounds. -/
theorem c9_paddle_clamped_witness :
    c9pad.walls = gameBounds ∧ c9pad.hitBoxRect = (⟨0, 0, 10, 50⟩ : Rect) ∧
    c9pad.hit_box_offset = (0, 0) ∧
    (gameBounds.left ≤ c9pad.update.hit_box.left ∧
     c9pad.update.hit_box.right ≤ gameBounds.right ∧
     gameBounds.top ≤ c9pad.update.hit_box.top ∧
     c9pad.update.hit_box.bottom ≤ gameBounds.bottom) ∧
    (¬ qtrunc (c9pad.pos.2 + c9pad.vel.2) < 15 ∧
     236 < qtrunc (c9pad.pos.2 + c9pad.vel.2) + 50 ∧
     c9pad.update.pos.2 = 185) := by
  have h := c9_paddle_clamped c9pad rfl rfl rfl
  have hy1 : ¬ qtrunc (c9pad.pos.2 + c9pad.vel.2) < 15 := by
    norm_num [c9pad, mkPlayer, qtrunc_eval]
  have hy2 : 236 < qtrunc (c9pad.pos.2 + c9pad.vel.2) + 50 := by
    norm_num [c9pad, mkPlayer, qtrunc_eval]
  exact ⟨rfl, rfl, rfl, h.1, hy1, hy2, h.2.2.2.2 hy1 hy2⟩

theorem eraseIdx_append_mid (acc : List Rect) (b : Rect) (rest : List Rect) :
    (acc ++ b :: rest).eraseIdx acc.length = acc ++ rest := by
  induction acc with
  | nil => rfl
  | cons a t ih => simpa [List.eraseIdx] using ih

theorem set_append_mid (acc : List Rect) (b c : Rect) (rest : List Rect) :
    (acc ++ b :: rest).set acc.length c = acc ++ c :: rest := by
  set_option linter.unnecessarySimpa false in
  induction acc with
  | nil => rfl
  | cons a t ih => simpa [List.set] using ih

theorem getElem?_append_mid (acc : List Rect) (b : Rect) (rest : List Rect) :
    (acc ++ b :: rest)[acc.length]? = some b := by
  rw [List.getElem?_append_right (le_refl acc.length)]
  simp

theorem bulletRun_cons (hb mb : Rect) (dx : ℤ) (b : Rect) (rest : List Rect) :
    bulletRun hb mb dx (b :: rest) =
      (if hb.colliderect b then (rest, true)
       else if ¬ mb.contains (moveBullet dx b) then (rest, false)
       else (moveBullet dx b :: (bulletRun hb mb dx rest).1, (bulletRun hb mb dx rest).2)) := by
  rw [bulletRun]

/-- The index-based bullet loop agrees with its structural restatement: run
on a list whose first `acc.length` entries are already processed, it returns
the processed prefix unchanged followed by `bulletRun` of the rest. -/
theorem bulletLoop_eq_run (hb mb : Rect) (dx : ℤ) :
    ∀ (rest acc : List Rect),
      bulletLoop hb mb dx rest.length acc.length (acc ++ rest) =
        some (acc ++ (bulletRun hb mb dx rest).1, (bulletRun hb mb dx rest).2) := by
  intro rest
  induction rest with
  | nil => intro acc; simp [bulletLoop, bulletRun]
  | cons b r ih =>
    intro acc
    show bulletLoop hb mb dx (r.length + 1) acc.length (acc ++ b :: r) = _
    unfold bulletLoop
    rw [getElem?_append_mid]
    dsimp only
    by_cases hcb : hb.colliderect b
    · rw [if_pos hcb, eraseIdx_append_mid, bulletRun_cons, if_pos hcb]
    · rw [if_neg hcb, set_append_mid]
      by_cases hcm : ¬ mb.contains (moveBullet dx b)
      · rw [if_pos hcm, eraseIdx_append_mid, bulletRun_cons, if_neg hcb, if_pos hcm]
      · rw [if_neg hcm]
        have h1 : acc.length + 1 = (acc ++ [moveBullet dx b]).length := by simp
        have h2 : acc ++ moveBullet dx b :: r = (acc ++ [moveBullet dx b]) ++ r := by simp
        rw [h1, h2, ih (acc ++ [moveBullet dx b]), bulletRun_cons, if_neg hcb, if_neg hcm]
        simp

/-- A bullet loop started on the whole list never hits an index error and
computes `bulletRun`. -/
theorem bulletPhase_eq_run (hb mb : Rect) (dx : ℤ) (l : List Rect) :
    bulletPhase hb mb dx l = some (bulletRun hb mb dx l) := by
  have h := bulletLoop_eq_run hb mb dx l []
  simpa [bulletPhase] using h

/-- Structure of one bullet pass: at most one bullet is removed; if none is,
every bullet just moved; if one is, the bullets before it moved and the
bullets after it are untouched (neither moved nor collision-checked). -/
theorem bulletRun_spec (hb mb : Rect) (dx : ℤ) (l : List Rect) :
    l.length ≤ (bulletRun hb mb dx l).1.length + 1 ∧
    ((bulletRun hb mb dx l).1 = l.map (moveBullet dx) ∨
      ∃ i, i < l.length ∧
        (bulletRun hb mb dx l).1 = (l.take i).map (moveBullet dx) ++ l.drop (i + 1)) := by
  induction l with
  | nil => simp [bulletRun]
  | cons b r ih =>
    rw [bulletRun_cons]
    by_cases hcb : hb.colliderect b
    · rw [if_pos hcb]
      exact ⟨by simp, Or.inr ⟨0, by simp, by simp⟩⟩
    · rw [if_neg hcb]
      by_cases hcm : ¬ mb.contains (moveBullet dx b)
      · rw [if_pos hcm]
        exact ⟨by simp, Or.inr ⟨0, by simp, by simp⟩⟩
      · rw [if_neg hcm]
        dsimp only
        obtain ⟨ihl, ihs⟩ := ih
        refine ⟨by simp; omega, ?_⟩
        rcases ihs with h | ⟨i, hi, hsh⟩
        · exact Or.inl (by simp [h])
        · refine Or.inr ⟨i + 1, by simpa using hi, ?_⟩
          simp [hsh]

/-- C10 (confirmed): on an unpaused `Tutorial.update` tick, each of the two
index-based bullet loops (player bullets moving `+5`, bot bullets `-5`,
both against the outer despawn bound) terminates without ever reading an
out-of-range index, removes at most one bullet from its list, and once a
bullet is removed the bullets after it in that list are neither moved nor
collision-checked on that tick. -/
theorem c10_bullet_loops_safe (botHb plHb : Rect) (pls bts : List Rect) :
    BulletSpec botHb gameMaxBounds 5 pls ∧ BulletSpec plHb gameMaxBounds (-5) bts := by
  constructor
  · exact ⟨bulletRun botHb gameMaxBounds 5 pls, bulletPhase_eq_run _ _ _ _,
      (bulletRun_spec _ _ _ _).1, (bulletRun_spec _ _ _ _).2⟩
  · exact ⟨bulletRun plHb gameMaxBounds (-5) bts, bulletPhase_eq_run _ _ _ _,
      (bulletRun_spec _ _ _ _).1, (bulletRun_spec _ _ _ _).2⟩

/-- C10 (witness): the loop theorem at a concrete three-bullet list whose
middle bullet overlaps the bot paddle. -/
theorem c10_bullet_loops_safe_witness :
    BulletSpec c10hb gameMaxBounds 5 c10pls ∧
    BulletSpec c10hb gameMaxBounds (-5) ([] : List Rect) := by
  exact c10_bullet_loops_safe c10hb c10hb c10pls []
